import Mathlib

/-!
# Verification of the order-book sync / wall-detection / scoring core

Shallow embedding of the `binance_wall_signal_bot` repository:

* `src/orderbook.py`   → `SideBook`, `Book`, `applyLevel`, `applyDepthUpdate`, `topLevels`
* `src/main.py`        → `AppState`, `applyDepthEvent`, `applyDepthEventBootstrap`,
                         `trySyncFromSnapshot`, `startResyncLocked`, `onDepthMessage`
* `src/wall_detector.py` → `DetectorState`, `trackNewWalls`, `checkDrops`, `processDetector`
* `src/polymarket_scorer.py` → `ScorerState`, `setReference`, `decayShock`,
                         `onOrderbookUpdate`, `onWallEvent`

Quantities and prices are embedded as `ℚ` for the exact-arithmetic components
(book, synchronizer, detector) and as `ℝ` for the scorer, whose decay uses
`exp`.  Timestamps are explicit parameters (`time.time()` in the source).
Python dicts are embedded as insertion-ordered association lists whose
operations keep keys unique, mirroring dict semantics.  `logger.warning`
calls are embedded as a warning counter on the state.
-/

set_option maxRecDepth 4000

namespace WallBot

/-- A `(price, qty)` level, both rational (Python floats carrying exact decimal
inputs in every scenario the claims exercise). -/
abbrev Level := ℚ × ℚ

/-- One side of `OrderBook`: the dict `price -> qty` as an insertion-ordered
association list. -/
abbrev SideBook := List Level

/-- Dict lookup: first (unique) binding of `price`. -/
def lookupLevel (b : SideBook) (price : ℚ) : Option ℚ :=
  match b with
  | [] => none
  | (p, q) :: rest => if p = price then some q else lookupLevel rest price

/-- `price in side_book`. -/
def hasPrice (b : SideBook) (price : ℚ) : Bool :=
  (lookupLevel b price).isSome

/-- `side_book[price] = qty`: replace in place if present, else append
(Python dicts keep the original position of an existing key). -/
def setLevel (b : SideBook) (price qty : ℚ) : SideBook :=
  match b with
  | [] => [(price, qty)]
  | (p, q) :: rest =>
      if p = price then (price, qty) :: rest else (p, q) :: setLevel rest price qty

/-- `side_book.pop(price, None)`: drop the (unique) binding of `price`. -/
def popLevel (b : SideBook) (price : ℚ) : SideBook :=
  match b with
  | [] => []
  | (p, q) :: rest => if p = price then rest else (p, q) :: popLevel rest price

/-- `_apply_level` (src/orderbook.py:41-45): a non-positive quantity removes the
price, a positive one upserts it. -/
def applyLevel (b : SideBook) (price qty : ℚ) : SideBook :=
  if qty ≤ 0 then popLevel b price else setLevel b price qty

/-- The two update loops of `apply_depth_update` folded over one side. -/
def applyLevels (b : SideBook) (levels : List Level) : SideBook :=
  levels.foldl (fun acc pq => applyLevel acc pq.1 pq.2) b

/-- The full book: `OrderBook._bids` / `OrderBook._asks`. -/
structure Book where
  bids : SideBook
  asks : SideBook
deriving DecidableEq, Repr

/-- `OrderBookState` (src/orderbook.py:7-10): the materialized top-N view. -/
structure OrderBookState where
  bids : List Level
  asks : List Level
deriving DecidableEq, Repr

/-- Stable insertion used to embed Python's stable `sorted`. -/
def insertSorted (le : α → α → Bool) (x : α) : List α → List α
  | [] => [x]
  | y :: ys => if le x y then x :: y :: ys else y :: insertSorted le x ys

/-- Stable sort (insertion sort; Python's `sorted` is also stable, and the
keys it sorts here are unique, so any stable sort gives the same list). -/
def sortBy (le : α → α → Bool) (xs : List α) : List α :=
  xs.foldr (insertSorted le) []

/-- `OrderBook.top_levels` (src/orderbook.py:28-31): bids descending,
asks ascending, both capped at `n_levels`. -/
def topLevels (nLevels : ℕ) (bk : Book) : OrderBookState :=
  { bids := (sortBy (fun x y : Level => decide (y.1 ≤ x.1)) bk.bids).take nLevels
    asks := (sortBy (fun x y : Level => decide (x.1 ≤ y.1)) bk.asks).take nLevels }

/-- A depth diff message: `{U, u, pu, b, a}`.  `pu` is optional because
`data.get("pu", self.last_update_id)` falls back to the cursor. -/
structure DepthEvent where
  U : ℕ
  u : ℕ
  pu : Option ℕ
  b : List Level
  a : List Level
deriving DecidableEq, Repr

/-- `OrderBook.apply_depth_update` (src/orderbook.py:19-26), returning the
mutated book together with the fresh top-N view. -/
def applyDepthUpdate (nLevels : ℕ) (bk : Book) (e : DepthEvent) : Book × OrderBookState :=
  let bk' : Book := { bids := applyLevels bk.bids e.b, asks := applyLevels bk.asks e.a }
  (bk', topLevels nLevels bk')

/-- Book side. -/
inductive Side
  | bid
  | ask
deriving DecidableEq, Repr

/-- Modelled from the spec: `OrderBook.qty_at` is called by `App` (as the
detector's quantity-lookup callback) but is absent from `src/orderbook.py`;
§4.1 of the spec: "`quantityAt(side, price)` returns 0 if absent". -/
def qtyAt (bk : Book) (side : Side) (price : ℚ) : ℚ :=
  match side with
  | .bid => (lookupLevel bk.bids price).getD 0
  | .ask => (lookupLevel bk.asks price).getD 0

/-- Modelled from the spec: `OrderBook.load_snapshot(bids, asks)` is called by
`App._try_sync_from_snapshot` but is absent from `src/orderbook.py`; §4.1:
"`applySnapshot(bids, asks)` replaces all state atomically", and §3's
invariant means a non-positive snapshot quantity is never stored. -/
def loadSnapshot (bids asks : List Level) : Book :=
  { bids := applyLevels [] bids, asks := applyLevels [] asks }

/-- Modelled from the spec: `OrderBook.clear()` is called by `App` but is
absent from `src/orderbook.py`; §3: the book is "cleared on disconnect/resync
start". -/
def clearBook : Book :=
  { bids := [], asks := [] }

/-! ## WallDetector (src/wall_detector.py) -/

/-- Trade direction string: bid-depletion → `"SHORT"`, ask-depletion → `"LONG"`. -/
inductive Direction
  | long
  | short
deriving DecidableEq, Repr

/-- `event_type` strings `"DROP" | "MAJOR_DROP" | "FULL_REMOVE"`. -/
inductive EventType
  | drop
  | majorDrop
  | fullRemove
deriving DecidableEq, Repr

/-- `WallInfo` (src/wall_detector.py:10-14). -/
structure WallInfo where
  qty : ℚ
  firstSeenTs : ℚ
  distBps : ℚ
deriving DecidableEq, Repr

/-- `SignalEvent` (src/wall_detector.py:17-34).  `score` is a Python `int`. -/
structure SignalEvent where
  ts : ℚ
  side : Side
  direction : Direction
  price : ℚ
  oldQty : ℚ
  currentQty : ℚ
  dropPct : ℚ
  imbalance : ℚ
  score : ℤ
  distBps : ℚ
  touchBps : ℚ
  ageSec : ℚ
  bestBid : ℚ
  bestAsk : ℚ
  fullRemove : Bool
  eventType : EventType
deriving DecidableEq, Repr

/-- The `WallDetector` constructor parameters (src/wall_detector.py:37-74);
`priceBucket` is the stored `max(price_bucket, 1e-8)`.  `nLevels` is shared
with the `OrderBook` (both get `cfg.n_levels` in `App.__init__`). -/
structure DetectorCfg where
  nLevels : ℕ
  wallMult : ℚ
  minWallQty : ℚ
  maxWallDistBps : ℚ
  eventTtlSec : ℚ
  wallDropPct : ℚ
  imbThr : ℚ
  signalCooldownSec : ℚ
  maxTouchBps : ℚ
  priceCooldownSec : ℚ
  priceBucket : ℚ
  fullRemoveEps : ℚ
  onlyFullRemove : Bool
  majorDropMinPct : ℚ
  minTouchBps : ℚ
  minWallAgeSec : ℚ
  globalCooldownSec : ℚ
deriving DecidableEq, Repr

/-- The detector's mutable state (src/wall_detector.py:75-78). -/
structure DetectorState where
  wallsBid : List (ℚ × WallInfo)
  wallsAsk : List (ℚ × WallInfo)
  lastSignalLong : ℚ
  lastSignalShort : ℚ
  lastGlobalSignalTs : ℚ
  lastLevelSignalTs : List ((Side × ℚ) × ℚ)
deriving DecidableEq, Repr

def DetectorState.walls (d : DetectorState) : Side → List (ℚ × WallInfo)
  | .bid => d.wallsBid
  | .ask => d.wallsAsk

def DetectorState.setWalls (d : DetectorState) (side : Side) (w : List (ℚ × WallInfo)) :
    DetectorState :=
  match side with
  | .bid => { d with wallsBid := w }
  | .ask => { d with wallsAsk := w }

def DetectorState.lastSignalTs (d : DetectorState) : Direction → ℚ
  | .long => d.lastSignalLong
  | .short => d.lastSignalShort

def DetectorState.setLastSignalTs (d : DetectorState) (dir : Direction) (ts : ℚ) :
    DetectorState :=
  match dir with
  | .long => { d with lastSignalLong := ts }
  | .short => { d with lastSignalShort := ts }

def DetectorState.setGlobalTs (d : DetectorState) (ts : ℚ) : DetectorState :=
  { d with lastGlobalSignalTs := ts }

def DetectorState.setLevelTs (d : DetectorState) (m : List ((Side × ℚ) × ℚ)) :
    DetectorState :=
  { d with lastLevelSignalTs := m }

/-- `WallDetector.reset` (src/wall_detector.py:80-84). -/
def resetDetector : DetectorState :=
  { wallsBid := [], wallsAsk := [], lastSignalLong := 0, lastSignalShort := 0
    lastGlobalSignalTs := 0, lastLevelSignalTs := [] }

/-- Dict lookup in a per-side wall map. -/
def lookupWall (ws : List (ℚ × WallInfo)) (price : ℚ) : Option WallInfo :=
  match ws with
  | [] => none
  | (p, i) :: rest => if p = price then some i else lookupWall rest price

/-- `side_walls.pop(price, None)`. -/
def popWall (ws : List (ℚ × WallInfo)) (price : ℚ) : List (ℚ × WallInfo) :=
  match ws with
  | [] => []
  | (p, i) :: rest => if p = price then rest else (p, i) :: popWall rest price

def lookupTs (m : List ((Side × ℚ) × ℚ)) (k : Side × ℚ) : Option ℚ :=
  match m with
  | [] => none
  | (k', v) :: rest => if k' = k then some v else lookupTs rest k

def setTs (m : List ((Side × ℚ) × ℚ)) (k : Side × ℚ) (v : ℚ) : List ((Side × ℚ) × ℚ) :=
  match m with
  | [] => [(k, v)]
  | (k', v') :: rest => if k' = k then (k, v) :: rest else (k', v') :: setTs rest k v

/-- `_calc_imbalance` (src/wall_detector.py:248-254). -/
def calcImbalance (bids asks : List Level) : ℚ :=
  let bidsQty := (bids.map Prod.snd).sum
  let asksQty := (asks.map Prod.snd).sum
  let total := bidsQty + asksQty
  if total ≤ 0 then 0 else (bidsQty - asksQty) / total

/-- `_calc_mid` (src/wall_detector.py:257-260). -/
def calcMid (bids asks : List Level) : ℚ :=
  match bids, asks with
  | (pb, _) :: _, (pa, _) :: _ => (pb + pa) / 2
  | _, _ => 0

/-- `_calc_spread_bps` (src/wall_detector.py:263-267). -/
def calcSpreadBps (bids asks : List Level) : ℚ :=
  let mid := calcMid bids asks
  if mid ≤ 0 then 0
  else
    match bids, asks with
    | (pb, _) :: _, (pa, _) :: _ => (pa - pb) / mid * 10000
    | _, _ => 0

/-- `_calc_touch_bps` (src/wall_detector.py:270-277); `none` embeds the
`float("inf")` sentinel (the detector's finite `max_touch_bps` always
rejects it). -/
def calcTouchBps (referencePrice wallPrice mid : ℚ) (side : Side) : Option ℚ :=
  if referencePrice ≤ 0 ∨ mid ≤ 0 then none
  else if side = .bid ∧ wallPrice > referencePrice then none
  else if side = .ask ∧ wallPrice < referencePrice then none
  else some (|referencePrice - wallPrice| / mid * 10000)

/-- `statistics.median`: middle element of the sorted values, or the average
of the two middle ones. -/
def medianQ (xs : List ℚ) : ℚ :=
  let s := sortBy (fun a b : ℚ => decide (a ≤ b)) xs
  let n := s.length
  if n % 2 = 1 then s.getD (n / 2) 0
  else (s.getD (n / 2 - 1) 0 + s.getD (n / 2) 0) / 2

/-- Python's `round` to the nearest integer, ties to even. -/
def roundHalfEven (x : ℚ) : ℤ :=
  let f := x.floor
  let r := x - f
  if r < 1 / 2 then f
  else if 1 / 2 < r then f + 1
  else if f % 2 = 0 then f else f + 1

/-- `round(x, 8)`. -/
def round8 (x : ℚ) : ℚ :=
  (roundHalfEven (x * 100000000) : ℚ) / 100000000

/-- The price-bucket key `round(round(price / bucket) * bucket, 8)`
(src/wall_detector.py:239). -/
def bucketKey (cfg : DetectorCfg) (price : ℚ) : ℚ :=
  round8 ((roundHalfEven (price / cfg.priceBucket) : ℚ) * cfg.priceBucket)

/-- `_allow_level_signal` (src/wall_detector.py:238-245): returns whether the
bucket may fire and the updated per-bucket timestamp map (the timestamp is
stamped whenever the answer is `true`, even if the event is suppressed
later). -/
def allowLevelSignal (cfg : DetectorCfg) (m : List ((Side × ℚ) × ℚ)) (side : Side)
    (price now : ℚ) : Bool × List ((Side × ℚ) × ℚ) :=
  let key : Side × ℚ := (side, bucketKey cfg price)
  match lookupTs m key with
  | some lastTs =>
      if now - lastTs < cfg.priceCooldownSec then (false, m) else (true, setTs m key now)
  | none => (true, setTs m key now)

/-- `_is_better_event` (src/wall_detector.py:280-287). -/
def isBetterEvent (candidate currentBest : SignalEvent) : Bool :=
  if candidate.eventType ≠ currentBest.eventType then
    decide (candidate.eventType = .fullRemove)
  else if candidate.oldQty ≠ currentBest.oldQty then
    decide (candidate.oldQty > currentBest.oldQty)
  else if candidate.touchBps ≠ currentBest.touchBps then
    decide (candidate.touchBps < currentBest.touchBps)
  else decide (candidate.score > currentBest.score)

/-- Python `int()` applied to the score (truncation toward zero). -/
def pyInt (x : ℚ) : ℤ :=
  if 0 ≤ x then ⌊x⌋ else ⌈x⌉

/-- `_track_new_walls` (src/wall_detector.py:114-132) on one side. -/
def trackNewWalls (cfg : DetectorCfg) (d : DetectorState) (side : Side)
    (levels : List Level) (medianQty mid now : ℚ) : DetectorState :=
  if medianQty ≤ 0 ∨ mid ≤ 0 then d
  else
    let threshold := max cfg.minWallQty (cfg.wallMult * medianQty)
    let ws := levels.foldl
      (fun ws pq =>
        let dist := |pq.1 - mid| / mid * 10000
        if dist > cfg.maxWallDistBps then ws
        else if pq.2 ≥ threshold ∧ lookupWall ws pq.1 = none then
          ws ++ [(pq.1, { qty := pq.2, firstSeenTs := now, distBps := dist })]
        else ws)
      (d.walls side)
    d.setWalls side ws

/-- The classification block of `_check_drops` (src/wall_detector.py:170-180):
`none` means `continue` (only-full-remove mode with no full removal). -/
def classify (cfg : DetectorCfg) (fullRemove majorDrop : Bool) : Option EventType :=
  if cfg.onlyFullRemove then
    if fullRemove then some .fullRemove else none
  else if fullRemove then some .fullRemove
  else if majorDrop then some .majorDrop
  else some .drop

/-- The running state of the `for price, info in list(side_walls.items())`
loop of `_check_drops`. -/
structure DropLoopSt where
  walls : List (ℚ × WallInfo)
  levelTs : List ((Side × ℚ) × ℚ)
  best : Option (SignalEvent × ℚ)
deriving DecidableEq, Repr

/-- The `SignalEvent` record built at src/wall_detector.py:197-218, with the
score `int(min(100, 10 + imb_score + drop_score + touch_score))`. -/
def mkDropEvent (side : Side) (imb now bb ba : ℚ) (price : ℚ) (info : WallInfo)
    (age currentQty dropPct : ℚ) (fullRemove : Bool) (eventType : EventType)
    (touchBps : ℚ) : SignalEvent :=
  { ts := now, side := side
    direction := if side = .bid then .short else .long
    price := price, oldQty := info.qty, currentQty := currentQty
    dropPct := dropPct, imbalance := imb
    score := pyInt (min 100 (10 + min 40 (|imb| * 200) + min 40 (dropPct * 40) +
      max 0 (20 - touchBps * 10)))
    distBps := info.distBps, touchBps := touchBps, ageSec := age
    bestBid := bb, bestAsk := ba
    fullRemove := fullRemove, eventType := eventType }

/-- The tail of a `_check_drops` loop iteration once every filter has passed
(src/wall_detector.py:197-221): build the scored event, remember the stamped
per-bucket timestamps, and keep the better of it and the current best. -/
def promoteBest (side : Side) (imb now bb ba : ℚ) (price : ℚ) (info : WallInfo)
    (age currentQty dropPct : ℚ) (fullRemove : Bool) (eventType : EventType)
    (touchBps : ℚ) (levelTs : List ((Side × ℚ) × ℚ)) (st : DropLoopSt) : DropLoopSt :=
  let event : SignalEvent :=
    mkDropEvent side imb now bb ba price info age currentQty dropPct fullRemove
      eventType touchBps
  let best' :=
    match st.best with
    | none => some (event, price)
    | some (b, bp) =>
        if isBetterEvent event b then some (event, price) else some (b, bp)
  { st with levelTs := levelTs, best := best' }

/-- The classification-and-filter stage of a `_check_drops` loop iteration
(src/wall_detector.py:162-195). -/
def buildCandidate (cfg : DetectorCfg) (side : Side) (imb now mid bb ba : ℚ)
    (price : ℚ) (info : WallInfo) (age currentQty : ℚ) (st : DropLoopSt) :
    DropLoopSt :=
  let dropPct := (info.qty - currentQty) / info.qty
  let isZero := currentQty ≤ cfg.fullRemoveEps
  let isBigWall := info.qty ≥ cfg.minWallQty
  let fullRemove := isZero ∧ isBigWall ∧ dropPct ≥ cfg.majorDropMinPct
  let majorDrop := dropPct ≥ cfg.majorDropMinPct
  if dropPct < cfg.wallDropPct then st
  else
    match classify cfg (decide fullRemove) (decide majorDrop) with
    | none => st
    | some eventType =>
      if side = .ask ∧ imb < cfg.imbThr then st
      else if side = .bid ∧ imb > -cfg.imbThr then st
      else
        let touchRef := if side = .bid then bb else ba
        match calcTouchBps touchRef price mid side with
        | none => st
        | some touchBps =>
          if touchBps < cfg.minTouchBps then st
          else if touchBps > cfg.maxTouchBps then st
          else
            let allowed := allowLevelSignal cfg st.levelTs side price now
            if ¬ allowed.1 then st
            else promoteBest side imb now bb ba price info age currentQty
              dropPct (decide fullRemove) eventType touchBps allowed.2 st

/-- One iteration of the `_check_drops` loop (src/wall_detector.py:149-221). -/
def dropStep (cfg : DetectorCfg) (side : Side) (imbalance : ℚ)
    (qtyF : Side → ℚ → ℚ) (now mid bestBid bestAsk : ℚ)
    (st : DropLoopSt) (item : ℚ × WallInfo) : DropLoopSt :=
  let price := item.1
  let info := item.2
  let age := now - info.firstSeenTs
  if age > cfg.eventTtlSec then { st with walls := popWall st.walls price }
  else if age < cfg.minWallAgeSec then st
  else
    let currentQty := qtyF side price
    if info.qty ≤ 0 then { st with walls := popWall st.walls price }
    else buildCandidate cfg side imbalance now mid bestBid bestAsk price info age
      currentQty st

/-- The whole `for price, info in list(side_walls.items())` loop of
`_check_drops`, iterating over a snapshot of the wall map while mutating it. -/
def dropLoop (cfg : DetectorCfg) (d : DetectorState) (side : Side) (imbalance : ℚ)
    (qtyF : Side → ℚ → ℚ) (now mid bestBid bestAsk : ℚ) : DropLoopSt :=
  (d.walls side).foldl (dropStep cfg side imbalance qtyF now mid bestBid bestAsk)
    { walls := d.walls side, levelTs := d.lastLevelSignalTs, best := none }

/-- `_check_drops` (src/wall_detector.py:134-236): runs the candidate loop,
then the direction-level and global cooldowns; only an actually emitted
event pops the winning wall and stamps the cooldown timestamps. -/
def checkDrops (cfg : DetectorCfg) (d : DetectorState) (side : Side) (imbalance : ℚ)
    (qtyF : Side → ℚ → ℚ) (now mid bestBid bestAsk : ℚ) :
    Option SignalEvent × DetectorState :=
  let direction : Direction := if side = .bid then .short else .long
  let st := dropLoop cfg d side imbalance qtyF now mid bestBid bestAsk
  let d1 := (d.setWalls side st.walls).setLevelTs st.levelTs
  match st.best with
  | none => (none, d1)
  | some (best, bestPrice) =>
      if now - d.lastSignalTs direction < cfg.signalCooldownSec then (none, d1)
      else if now - d.lastGlobalSignalTs < cfg.globalCooldownSec then (none, d1)
      else
        let d2 := ((d1.setLastSignalTs direction now).setGlobalTs now).setWalls side
          (popWall st.walls bestPrice)
        (some best, d2)

/-- `WallDetector.process` (src/wall_detector.py:86-112), with `now` made an
explicit parameter (`time.time()` in the source).  Returns
`(events, imbalance, spread_bps, wall_candidates)` plus the updated state. -/
def processDetector (cfg : DetectorCfg) (d : DetectorState) (state : OrderBookState)
    (qtyF : Side → ℚ → ℚ) (now : ℚ) :
    List SignalEvent × ℚ × ℚ × ℕ × DetectorState :=
  let bids := state.bids.take cfg.nLevels
  let asks := state.asks.take cfg.nLevels
  let imbalance := calcImbalance bids asks
  let spreadBps := calcSpreadBps bids asks
  let mid := calcMid bids asks
  let bidMedian := if bids.isEmpty then 0 else medianQ (bids.map Prod.snd)
  let askMedian := if asks.isEmpty then 0 else medianQ (asks.map Prod.snd)
  let d1 := trackNewWalls cfg d .bid bids bidMedian mid now
  let d2 := trackNewWalls cfg d1 .ask asks askMedian mid now
  let bestBid := match bids with | (p, _) :: _ => p | [] => 0
  let bestAsk := match asks with | (p, _) :: _ => p | [] => 0
  let bidRes := checkDrops cfg d2 .bid imbalance qtyF now mid bestBid bestAsk
  let askRes := checkDrops cfg bidRes.2 .ask imbalance qtyF now mid bestBid bestAsk
  let events := (match bidRes.1 with | some e => [e] | none => []) ++
    (match askRes.1 with | some e => [e] | none => [])
  let wallCandidates := askRes.2.wallsBid.length + askRes.2.wallsAsk.length
  (events, imbalance, spreadBps, wallCandidates, askRes.2)

/-! ## App / Synchronizer (src/main.py) -/

/-- `App.MAX_DEPTH_BUFFER`. -/
def MAX_DEPTH_BUFFER : ℕ := 5000

/-- `App.RESYNC_BUFFER_KEEP`. -/
def RESYNC_BUFFER_KEEP : ℕ := 2000

/-- The REST depth snapshot `{lastUpdateId, bids, asks}`. -/
structure Snapshot where
  lastUpdateId : ℕ
  bids : List Level
  asks : List Level
deriving DecidableEq, Repr

/-- The `App` shared state guarded by `state_lock` (src/main.py:41-48), with
`logger.warning` calls embedded as a counter.  The bootstrap task handle and
the logger itself are not modelled. -/
structure AppState where
  book : Book
  lastState : OrderBookState
  lastImbalance : ℚ
  lastSpreadBps : ℚ
  wallCandidates : ℕ
  lastUpdateId : ℕ
  synced : Bool
  resyncing : Bool
  depthBuffer : List DepthEvent
  detector : DetectorState
  logWarnings : ℕ
deriving DecidableEq, Repr

/-- `App._cap_depth_buffer_for_resync` (src/main.py:237-240). -/
def capDepthBuffer (buf : List DepthEvent) : List DepthEvent :=
  if buf.length ≤ MAX_DEPTH_BUFFER then buf
  else buf.drop (buf.length - RESYNC_BUFFER_KEEP)

/-- `App._apply_depth_event` (src/main.py:178-205).  A stale diff
(`u < cursor`) is accepted as a no-op; a predecessor-id mismatch logs a
warning and fails; the coverage check only logs at debug level and the diff
is applied regardless. -/
def applyDepthEvent (cfg : DetectorCfg) (s : AppState) (e : DepthEvent) :
    Bool × AppState :=
  let prevU := e.pu.getD s.lastUpdateId
  if e.u < s.lastUpdateId then (true, s)
  else if prevU ≠ s.lastUpdateId then
    (false, { s with logWarnings := s.logWarnings + 1 })
  else
    let r := applyDepthUpdate cfg.nLevels s.book e
    (true, { s with book := r.1, lastState := r.2, lastUpdateId := e.u })

/-- `App._apply_depth_event_bootstrap` (src/main.py:207-225): applied to the
splice diff, which must cover `target = snapshot_id + 1`. -/
def applyDepthEventBootstrap (cfg : DetectorCfg) (s : AppState) (e : DepthEvent)
    (target : ℕ) : Bool × AppState :=
  if ¬ (e.U ≤ target ∧ target ≤ e.u) then
    (false, { s with logWarnings := s.logWarnings + 1 })
  else
    let r := applyDepthUpdate cfg.nLevels s.book e
    (true, { s with book := r.1, lastState := r.2, lastUpdateId := e.u })

/-- `App._process_state_update` (src/main.py:242-248): run the detector on
the latest view with the book's quantity lookup; emitted events only go to
the log. -/
def processStateUpdate (cfg : DetectorCfg) (s : AppState) (now : ℚ) : AppState :=
  let bk := s.book
  let r := processDetector cfg s.detector s.lastState (fun side price => qtyAt bk side price) now
  { s with lastImbalance := r.2.1, lastSpreadBps := r.2.2.1
           wallCandidates := r.2.2.2.1, detector := r.2.2.2.2 }

/-- `App._start_resync_locked` (src/main.py:227-235); re-spawning the
bootstrap task is concurrency and not modelled. -/
def startResyncLocked (s : AppState) : AppState :=
  { s with synced := false, resyncing := true, lastUpdateId := 0
           book := clearBook, detector := resetDetector
           depthBuffer := capDepthBuffer s.depthBuffer }

/-- The synced-path body of `App.on_message` (src/main.py:72-87): a rejected
diff logs "Depth gap detected" at warning level and forces resync, an
accepted diff triggers the detector pipeline.  The pre-sync path buffers. -/
def onDepthMessage (cfg : DetectorCfg) (s : AppState) (e : DepthEvent) (now : ℚ) :
    AppState :=
  if ¬ s.synced then
    { s with depthBuffer := capDepthBuffer (s.depthBuffer ++ [e]) }
  else
    let r := applyDepthEvent cfg s e
    if ¬ r.1 then startResyncLocked { r.2 with logWarnings := r.2.logWarnings + 1 }
    else processStateUpdate cfg r.2 now

/-- The splice-point search of `_try_sync_from_snapshot` (src/main.py:137-143):
first buffered diff with `U ≤ target ≤ u`, together with the diffs after it. -/
def findStraddle (target : ℕ) : List DepthEvent → Option (DepthEvent × List DepthEvent)
  | [] => none
  | e :: rest =>
      if e.U ≤ target ∧ target ≤ e.u then some (e, rest) else findStraddle target rest

/-- The `for event in buffered[first_idx + 1:]` loop (src/main.py:169-171):
apply diffs in order, aborting on the first failure. -/
def applyBuffered (cfg : DetectorCfg) : AppState → List DepthEvent → Bool × AppState
  | s, [] => (true, s)
  | s, e :: rest =>
      let r := applyDepthEvent cfg s e
      if r.1 then applyBuffered cfg r.2 rest else (false, r.2)

/-- `App._try_sync_from_snapshot` (src/main.py:130-176).  `now` is the time
at which the final `_process_state_update` runs.  Failure never sets
`synced`; the no-covering-event failure logs a warning. -/
def trySyncFromSnapshot (cfg : DetectorCfg) (snap : Snapshot) (s : AppState)
    (now : ℚ) : Bool × AppState :=
  let target := snap.lastUpdateId + 1
  let buffered := s.depthBuffer.filter (fun e => decide (target ≤ e.u))
  if buffered.isEmpty then (false, s)
  else
    match findStraddle target buffered with
    | none => (false, { s with logWarnings := s.logWarnings + 1 })
    | some (e, rest) =>
        let s1 := { s with book := loadSnapshot snap.bids snap.asks
                           lastUpdateId := snap.lastUpdateId }
        let r1 := applyDepthEventBootstrap cfg s1 e target
        if ¬ r1.1 then (false, r1.2)
        else
          let r2 := applyBuffered cfg r1.2 rest
          if ¬ r2.1 then (false, r2.2)
          else
            let s3 := r2.2
            let s4 := { s3 with synced := true
                                depthBuffer := s3.depthBuffer.filter
                                  (fun ev => decide (s3.lastUpdateId < ev.u)) }
            (true, processStateUpdate cfg s4 now)

/-! ## PolymarketScorer (src/polymarket_scorer.py)

The scorer decays its shock accumulator with `math.exp`, so this part of the
embedding lives in `ℝ` (and is `noncomputable`); the events it consumes are
re-embedded with real-valued fields. -/

/-- `base_center_mode` / `shock_distance_mode` strings: `"mid"`, `"blend"`,
anything else behaves as reference-anchored. -/
inductive CenterMode
  | mid
  | blend
  | ref
deriving DecidableEq, Repr

/-- The event fields the scorer reads (`side`, `event_type`, `price`,
`age_sec`, `best_bid`, `best_ask`). -/
structure RSignalEvent where
  side : Side
  eventType : EventType
  price : ℝ
  ageSec : ℝ
  bestBid : ℝ
  bestAsk : ℝ

/-- The book view the scorer reads (`OrderBookState` with real numbers). -/
structure RBook where
  bids : List (ℝ × ℝ)
  asks : List (ℝ × ℝ)

/-- `ScoreSnapshot` (src/polymarket_scorer.py:10-19); the diagnostic
`pressure_breakdown` list is not modelled. -/
structure ScoreSnapshot where
  pUp : ℝ
  pDown : ℝ
  baseRaw : ℝ
  basePUp : ℝ
  shockValue : ℝ
  refPrice : ℝ
  roundId : String

/-- The scorer's state: constructor parameters (after the constructor's
sanitization) plus the mutable fields (src/polymarket_scorer.py:43-68). -/
structure ScorerState where
  pressureRangesBps : List ℝ
  pressureWeights : List ℝ
  baseScale : ℝ
  shockHalfLifeSec : ℝ
  maxShock : ℝ
  shockDistanceBpsCap : ℝ
  shockMinAgeSec : ℝ
  shockAgeFullSec : ℝ
  minDepthSum : ℝ
  baseCenterMode : CenterMode
  baseRefWeight : ℝ
  shockDistanceMode : CenterMode
  shockFullRemove : ℝ
  shockMajorDrop : ℝ
  shockDrop : ℝ
  refPrice : ℝ
  roundId : String
  shockValue : ℝ
  lastTs : Option ℝ

noncomputable section

/-- `_clamp` (src/polymarket_scorer.py:222-223). -/
def clampR (value low high : ℝ) : ℝ := max low (min high value)

/-- `PolymarketScorer.__init__` (src/polymarket_scorer.py:22-68) with its
parameter sanitization.  (The constructor's equal-length check on the
pressure lists raises in Python; here the lists are simply zipped, which is
also what every later use does.) -/
def mkScorer (pressureRangesBps pressureWeights : List ℝ)
    (baseScale shockHalfLifeSec maxShock shockDistanceBpsCap shockMinAgeSec
      shockAgeFullSec minDepthSum : ℝ) (baseCenterMode : CenterMode)
    (baseRefWeight : ℝ) (shockDistanceMode : CenterMode)
    (shockFullRemove shockMajorDrop shockDrop : ℝ) : ScorerState :=
  { pressureRangesBps := pressureRangesBps
    pressureWeights := pressureWeights
    baseScale := baseScale
    shockHalfLifeSec := max 0.1 shockHalfLifeSec
    maxShock := max 1 maxShock
    shockDistanceBpsCap := max 1e-6 shockDistanceBpsCap
    shockMinAgeSec := max 0 shockMinAgeSec
    shockAgeFullSec := max (max 0 shockMinAgeSec + 1e-6) shockAgeFullSec
    minDepthSum := max 0 minDepthSum
    baseCenterMode := baseCenterMode
    baseRefWeight := clampR baseRefWeight 0 1
    shockDistanceMode := shockDistanceMode
    shockFullRemove := shockFullRemove
    shockMajorDrop := shockMajorDrop
    shockDrop := shockDrop
    refPrice := 0
    roundId := ""
    shockValue := 0
    lastTs := none }

/-- `set_reference` (src/polymarket_scorer.py:70-74). -/
def setReference (s : ScorerState) (price ts : ℝ) (roundId : String) : ScorerState :=
  { s with refPrice := max 0 price, roundId := roundId, shockValue := 0
           lastTs := some ts }

/-- `_decay_shock` (src/polymarket_scorer.py:116-124): on the first call just
record the timestamp; otherwise multiply the shock by
`exp(-dt * ln 2 / half_life)` when `dt = max(0, ts - last) > 0`. -/
def decayShock (s : ScorerState) (ts : ℝ) : ScorerState :=
  match s.lastTs with
  | none => { s with lastTs := some ts }
  | some last =>
      let dt := max 0 (ts - last)
      if 0 < dt then
        { s with
          shockValue := s.shockValue * Real.exp (-dt * Real.log 2 / s.shockHalfLifeSec)
          lastTs := some ts }
      else s

/-- `sum(qty for price, qty in levels if lo <= price <= hi)`. -/
def sumLevelsIn (levels : List (ℝ × ℝ)) (lo hi : ℝ) : ℝ :=
  (levels.map fun pq => if lo ≤ pq.1 ∧ pq.1 ≤ hi then pq.2 else 0).sum

/-- `_calc_pressure_for_center` (src/polymarket_scorer.py:183-205), without
the diagnostic breakdown: returns `(raw, weighted_buy, weighted_sell)`. -/
def calcPressureForCenter (s : ScorerState) (ob : RBook) (centerPrice : ℝ) :
    ℝ × ℝ × ℝ :=
  if centerPrice ≤ 0 then (0, 0, 0)
  else
    let pairs := s.pressureRangesBps.zip s.pressureWeights
    let weightedBuy := (pairs.map fun rw =>
      sumLevelsIn ob.bids (centerPrice - centerPrice * (rw.1 / 10000)) centerPrice * rw.2).sum
    let weightedSell := (pairs.map fun rw =>
      sumLevelsIn ob.asks centerPrice (centerPrice + centerPrice * (rw.1 / 10000)) * rw.2).sum
    let denom := weightedBuy + weightedSell + 1e-9
    (clampR ((weightedBuy - weightedSell) / denom) (-1) 1, weightedBuy, weightedSell)

/-- `(bids[0][0] + asks[0][0]) / 2`, or 0 on an empty side
(src/polymarket_scorer.py:216-219). -/
def rMid (ob : RBook) : ℝ :=
  match ob.bids, ob.asks with
  | (pb, _) :: _, (pa, _) :: _ => (pb + pa) / 2
  | _, _ => 0

/-- `_calc_base_raw` (src/polymarket_scorer.py:126-181), without the
diagnostic breakdown: the mode-selected raw pressure, zeroed when the
weighted depth is below `min_depth_sum`, clamped to `[-1, 1]`. -/
def calcBaseRaw (s : ScorerState) (ob : RBook) : ℝ :=
  if s.refPrice ≤ 0 then 0
  else
    let mid := rMid ob
    let resMid := calcPressureForCenter s ob mid
    let resRef := calcPressureForCenter s ob s.refPrice
    let sel : ℝ × ℝ × ℝ :=
      match s.baseCenterMode with
      | .mid => resMid
      | .blend =>
          let w := s.baseRefWeight
          let weightedBuy := resMid.2.1 * (1 - w) + resRef.2.1 * w
          let weightedSell := resMid.2.2 * (1 - w) + resRef.2.2 * w
          let denom := weightedBuy + weightedSell + 1e-9
          ((weightedBuy - weightedSell) / denom, weightedBuy, weightedSell)
      | .ref => resRef
    let depthSum := sel.2.1 + sel.2.2
    let raw := if depthSum ≥ s.minDepthSum then sel.1 else 0
    clampR raw (-1) 1

/-- `on_orderbook_update` (src/polymarket_scorer.py:76-90): decay first, then
the baseline and the shock-adjusted probability. -/
def onOrderbookUpdate (s : ScorerState) (ob : RBook) (ts : ℝ) :
    ScorerState × ScoreSnapshot :=
  let s1 := decayShock s ts
  let baseRaw := calcBaseRaw s1 ob
  let basePUp := clampR (50 + baseRaw * s1.baseScale) 0 100
  let pUp := clampR (basePUp + s1.shockValue) 0 100
  (s1, { pUp := pUp, pDown := 100 - pUp, baseRaw := baseRaw, basePUp := basePUp
         shockValue := s1.shockValue, refPrice := s1.refPrice, roundId := s1.roundId })

/-- The `_event_shock_map` lookup (src/polymarket_scorer.py:61-68). -/
def eventShock (s : ScorerState) (side : Side) (ty : EventType) : ℝ :=
  match side, ty with
  | .ask, .fullRemove => s.shockFullRemove
  | .ask, .majorDrop => s.shockMajorDrop
  | .ask, .drop => s.shockDrop
  | .bid, .fullRemove => -s.shockFullRemove
  | .bid, .majorDrop => -s.shockMajorDrop
  | .bid, .drop => -s.shockDrop

/-- `_event_distance_center` (src/polymarket_scorer.py:207-213). -/
def eventDistanceCenter (s : ScorerState) (ev : RSignalEvent) : ℝ :=
  match s.shockDistanceMode with
  | .mid => if ev.bestBid > 0 ∧ ev.bestAsk > 0 then (ev.bestBid + ev.bestAsk) / 2 else 0
  | .blend =>
      let mid := if ev.bestBid > 0 ∧ ev.bestAsk > 0 then (ev.bestBid + ev.bestAsk) / 2 else 0
      if mid > 0 then mid * (1 - s.baseRefWeight) + s.refPrice * s.baseRefWeight
      else s.refPrice
  | .ref => s.refPrice

/-- The body of `on_wall_event` after the initial `_decay_shock` call
(src/polymarket_scorer.py:94-114). -/
def onWallEventCore (s : ScorerState) (ev : RSignalEvent) : ScorerState :=
  if s.refPrice ≤ 0 then s
  else
    let baseShock := eventShock s ev.side ev.eventType
    if baseShock = 0 then s
    else
      let centerPrice := eventDistanceCenter s ev
      if centerPrice ≤ 0 then s
      else
        let distBps := |ev.price - centerPrice| / centerPrice * 10000
        let distanceMult := clampR (1 - distBps / s.shockDistanceBpsCap) 0.1 1
        let ageMult :=
          if ev.ageSec ≤ s.shockMinAgeSec then 0.3
          else if ev.ageSec ≥ s.shockAgeFullSec then 1
          else 0.3 + 0.7 * ((ev.ageSec - s.shockMinAgeSec) /
            (s.shockAgeFullSec - s.shockMinAgeSec))
        let newShock :=
          clampR (s.shockValue + baseShock * distanceMult * ageMult) (-s.maxShock) s.maxShock
        { s with shockValue := newShock }

/-- `on_wall_event` (src/polymarket_scorer.py:92-114): decay first, then the
shock contribution. -/
def onWallEvent (s : ScorerState) (ev : RSignalEvent) (ts : ℝ) : ScorerState :=
  onWallEventCore (decayShock s ts) ev

/-- A call into the scorer's public interface. -/
inductive ScorerOp
  | setRef (price ts : ℝ) (roundId : String)
  | bookUpdate (ob : RBook) (ts : ℝ)
  | wallEvent (ev : RSignalEvent) (ts : ℝ)

/-- Run one scorer call (dropping the returned snapshot). -/
def runScorerOp (s : ScorerState) : ScorerOp → ScorerState
  | .setRef price ts roundId => setReference s price ts roundId
  | .bookUpdate ob ts => (onOrderbookUpdate s ob ts).1
  | .wallEvent ev ts => onWallEvent s ev ts

/-- Run a sequence of scorer calls. -/
def runScorerOps (s : ScorerState) (ops : List ScorerOp) : ScorerState :=
  ops.foldl runScorerOp s

end

/-! ## Invariants and concrete scenarios used by the theorems below -/

/-- Keys of a side map / association list. -/
def sideKeys (b : SideBook) : List ℚ := b.map Prod.fst

/-- The §3 invariant on one dict: unique keys, and every stored quantity is
strictly positive. -/
def SideInv (b : SideBook) : Prop :=
  (sideKeys b).Nodup ∧ ∀ p q, lookupLevel b p = some q → 0 < q

/-- The §3 invariant on the whole book. -/
def BookInv (bk : Book) : Prop := SideInv bk.bids ∧ SideInv bk.asks

/-- The scorer invariant: shock within `[-max_shock, max_shock]` and the
constructor-guaranteed parameter sanity. -/
def ScorerInv (s : ScorerState) : Prop :=
  |s.shockValue| ≤ s.maxShock ∧ 1 ≤ s.maxShock ∧ 0 < s.shockHalfLifeSec

/-- The score formula the detector actually uses for an emitted event, stated
on the event's own recorded fields: the Python `int(...)` truncation of
`min(100, 10 + imb_score + drop_score + touch_score)`. -/
def emittedScoreEq (ev : SignalEvent) : Prop :=
  ev.score = pyInt (min 100 (10 + min 40 (|ev.imbalance| * 200) +
    min 40 (ev.dropPct * 40) + max 0 (20 - ev.touchBps * 10)))

/-- The spec's claimed score formula `clamp(..., 0, 100)` (exact, unrounded). -/
def claimedScore (ev : SignalEvent) : ℚ :=
  max 0 (min 100 (10 + min 40 (|ev.imbalance| * 200) +
    min 40 (ev.dropPct * 40) + max 0 (20 - ev.touchBps * 10)))

/-- A permissive detector configuration used by the concrete scenarios. -/
def demoCfg : DetectorCfg :=
  { nLevels := 5, wallMult := 5, minWallQty := 5, maxWallDistBps := 1000
    eventTtlSec := 100, wallDropPct := 0.5, imbThr := 0, signalCooldownSec := 0
    maxTouchBps := 1000, priceCooldownSec := 60, priceBucket := 0.1
    fullRemoveEps := 1e-6, onlyFullRemove := false, majorDropMinPct := 0.95
    minTouchBps := 0, minWallAgeSec := 0, globalCooldownSec := 0 }

/-- §8 end-to-end scenario, first buffered diff `[U=95, u=101, pu=94]`. -/
def demoDiff1 : DepthEvent := { U := 95, u := 101, pu := some 94, b := [(100, 2)], a := [] }

/-- §8 end-to-end scenario, second buffered diff `[U=102, u=103, pu=101]`. -/
def demoDiff2 : DepthEvent := { U := 102, u := 103, pu := some 101, b := [], a := [(101, 3)] }

/-- A freshly connected, unsynced state holding the two §8 diffs. -/
def demoPreSync : AppState :=
  { book := clearBook, lastState := { bids := [], asks := [] }, lastImbalance := 0
    lastSpreadBps := 0, wallCandidates := 0, lastUpdateId := 0, synced := false
    resyncing := true, depthBuffer := [demoDiff1, demoDiff2]
    detector := resetDetector, logWarnings := 0 }

/-- §8 scenario snapshot with `lastUpdateId = 100`. -/
def demoSnapshot : Snapshot := { lastUpdateId := 100, bids := [(100, 1)], asks := [(101, 1)] }

/-- The synced state the §8 scenario produces (cursor 103). -/
def demoSynced : AppState := (trySyncFromSnapshot demoCfg demoSnapshot demoPreSync 0).2

/-- §8 scenario gap diff `[U=105, u=106, pu=104]` (expected pu 103). -/
def demoGapDiff : DepthEvent := { U := 105, u := 106, pu := some 104, b := [], a := [] }

/-- Quantity callback for the drop scenarios: the tracked ask wall at 101 has
fallen from 100 to 37 (drop 63%), the bid level at 100 is intact. -/
def demoQty : Side → ℚ → ℚ := fun side price =>
  if side = .ask ∧ price = 101 then 37 else if side = .bid ∧ price = 100 then 13 else 0

/-- Detector state with one tracked ask wall (price 101, original qty 100). -/
def demoWalls : DetectorState :=
  { wallsBid := [], wallsAsk := [(101, { qty := 100, firstSeenTs := 0, distBps := 1 })]
    lastSignalLong := 0, lastSignalShort := 0, lastGlobalSignalTs := 0
    lastLevelSignalTs := [] }

/-- Top-of-book for the drop scenarios: imbalance `(13-7)/20 = 0.3`. -/
def demoBook : OrderBookState := { bids := [(100, 13)], asks := [(101, 7)] }

/-- Same configuration with a long direction-level cooldown that is still
active at `now = 10` given a last LONG signal at 9. -/
def cooldownCfg : DetectorCfg := { demoCfg with signalCooldownSec := 100 }

/-- `demoWalls` after a LONG signal at time 9 started the cooldown. -/
def cooldownWalls : DetectorState := { demoWalls with lastSignalLong := 9 }

/-- Detector state with a qualifying tracked wall on each side. -/
def twoSidedWalls : DetectorState :=
  { wallsBid := [(99, { qty := 50, firstSeenTs := 0, distBps := 1 })]
    wallsAsk := [(102, { qty := 50, firstSeenTs := 0, distBps := 1 })]
    lastSignalLong := 0, lastSignalShort := 0, lastGlobalSignalTs := 0
    lastLevelSignalTs := [] }

/-- Symmetric top-of-book (imbalance 0) for the two-sided scenario. -/
def twoSidedBook : OrderBookState := { bids := [(100, 10)], asks := [(101, 10)] }

/-- Quantity callback reporting both tracked walls as fully consumed. -/
def zeroQty : Side → ℚ → ℚ := fun _ _ => 0

/-- A small concrete book used to instantiate the hypotheses above. -/
def demoBk : Book := { bids := [(100, 5)], asks := [(101, 4)] }

/-- A synced state at cursor 103 used by several witnesses. -/
def syncedState : AppState :=
  { book := demoBk, lastState := { bids := [(100, 5)], asks := [(101, 4)] }
    lastImbalance := 0, lastSpreadBps := 0, wallCandidates := 0, lastUpdateId := 103
    synced := true, resyncing := false, depthBuffer := [], detector := resetDetector
    logWarnings := 0 }

/-- A stale diff (`u = 95 < 103`) with a mismatching predecessor id. -/
def staleDiff : DepthEvent := { U := 90, u := 95, pu := some 89, b := [(100, 0)], a := [] }

/-- The event the drop scenarios emit: DROP, drop fraction 0.63, imbalance
0.3, touch distance 0 — composite sum `10 + 40 + 25.2 + 20 = 95.2`, stored
score `int(95.2) = 95`. -/
def ev95 : SignalEvent :=
  { ts := 10, side := .ask, direction := .long, price := 101, oldQty := 100
    currentQty := 37, dropPct := 63/100, imbalance := 3/10, score := 95, distBps := 1
    touchBps := 0, ageSec := 10, bestBid := 100, bestAsk := 101, fullRemove := false
    eventType := .drop }

noncomputable section

/-- The scorer under the balanced-profile test parameters, with the
reference-anchored centering modes. -/
def testScorer : ScorerState :=
  mkScorer [5, 10, 20] [1, 0.6, 0.3] 30 15 35 20 0.2 1 1 .ref 0.3 .ref 12 7 4

/-- `testScorer` after `set_reference(100, ts=0, round_id="0")`. -/
def testScorerRef : ScorerState := setReference testScorer 100 0 "0"

/-- `testScorerRef` with the constructor's sanitization evaluated away, for
use in the concrete decay computations. -/
def testScorerLit : ScorerState :=
  { pressureRangesBps := [5, 10, 20], pressureWeights := [1, 0.6, 0.3]
    baseScale := 30, shockHalfLifeSec := 15, maxShock := 35
    shockDistanceBpsCap := 20, shockMinAgeSec := 0.2, shockAgeFullSec := 1
    minDepthSum := 1, baseCenterMode := .ref, baseRefWeight := 0.3
    shockDistanceMode := .ref, shockFullRemove := 12, shockMajorDrop := 7
    shockDrop := 4, refPrice := 100, roundId := "0", shockValue := 0
    lastTs := some 0 }

/-- A symmetric book around the reference price 100. -/
def testBook : RBook := { bids := [(99.95, 10)], asks := [(100.05, 10)] }

/-- A mature ask-side full-removal event 10 bps from the reference. -/
def testEvent : RSignalEvent :=
  { side := .ask, eventType := .fullRemove, price := 100.1, ageSec := 1.2
    bestBid := 99.95, bestAsk := 100.05 }

end

/-! ## Association-list (Python dict) lemmas -/

theorem lookupLevel_cons (a b0 : ℚ) (tl : SideBook) (p : ℚ) :
    lookupLevel ((a, b0) :: tl) p = if a = p then some b0 else lookupLevel tl p := rfl

theorem setLevel_cons (a b0 : ℚ) (tl : SideBook) (p q : ℚ) :
    setLevel ((a, b0) :: tl) p q =
      if a = p then (p, q) :: tl else (a, b0) :: setLevel tl p q := rfl

theorem popLevel_cons (a b0 : ℚ) (tl : SideBook) (p : ℚ) :
    popLevel ((a, b0) :: tl) p = if a = p then tl else (a, b0) :: popLevel tl p := rfl

theorem lookupLevel_setLevel_self (b : SideBook) (p q : ℚ) :
    lookupLevel (setLevel b p q) p = some q := by
  induction b with
  | nil => simp [setLevel, lookupLevel]
  | cons hd tl ih =>
      obtain ⟨a, b0⟩ := hd
      rw [setLevel_cons]
      by_cases hh : a = p
      · rw [if_pos hh, lookupLevel_cons, if_pos rfl]
      · rw [if_neg hh, lookupLevel_cons, if_neg hh, ih]

theorem lookupLevel_setLevel_ne (b : SideBook) (p q p' : ℚ) (h : p' ≠ p) :
    lookupLevel (setLevel b p q) p' = lookupLevel b p' := by
  induction b with
  | nil =>
      show lookupLevel [(p, q)] p' = none
      rw [lookupLevel_cons, if_neg (fun hh => h hh.symm)]
      rfl
  | cons hd tl ih =>
      obtain ⟨a, b0⟩ := hd
      rw [setLevel_cons]
      by_cases hh : a = p
      · subst hh
        rw [if_pos rfl, lookupLevel_cons, lookupLevel_cons,
          if_neg (fun hh => h hh.symm), if_neg (fun hh => h hh.symm)]
      · rw [if_neg hh, lookupLevel_cons, lookupLevel_cons, ih]

theorem lookupLevel_popLevel_ne (b : SideBook) (p p' : ℚ) (h : p' ≠ p) :
    lookupLevel (popLevel b p) p' = lookupLevel b p' := by
  induction b with
  | nil => rfl
  | cons hd tl ih =>
      obtain ⟨a, b0⟩ := hd
      rw [popLevel_cons]
      by_cases hh : a = p
      · subst hh
        rw [if_pos rfl, lookupLevel_cons, if_neg (fun hh => h hh.symm)]
      · rw [if_neg hh, lookupLevel_cons, lookupLevel_cons, ih]

theorem mem_sideKeys_of_lookup (b : SideBook) (p : ℚ) (h : lookupLevel b p ≠ none) :
    p ∈ sideKeys b := by
  induction b with
  | nil => exact absurd rfl h
  | cons hd tl ih =>
      obtain ⟨a, b0⟩ := hd
      rw [lookupLevel_cons] at h
      by_cases hh : a = p
      · subst hh
        simp [sideKeys]
      · rw [if_neg hh] at h
        simpa [sideKeys] using Or.inr (by simpa [sideKeys] using ih h)

theorem lookupLevel_eq_none_of_not_mem (b : SideBook) (p : ℚ) (h : p ∉ sideKeys b) :
    lookupLevel b p = none := by
  by_contra hne
  exact h (mem_sideKeys_of_lookup b p hne)

theorem lookupLevel_popLevel_self (b : SideBook) (p : ℚ) (h : (sideKeys b).Nodup) :
    lookupLevel (popLevel b p) p = none := by
  induction b with
  | nil => rfl
  | cons hd tl ih =>
      obtain ⟨a, b0⟩ := hd
      rw [popLevel_cons]
      have hkeys : sideKeys ((a, b0) :: tl) = a :: sideKeys tl := rfl
      rw [hkeys] at h
      by_cases hh : a = p
      · subst hh
        rw [if_pos rfl]
        exact lookupLevel_eq_none_of_not_mem tl a (List.Nodup.not_mem h)
      · rw [if_neg hh, lookupLevel_cons, if_neg hh]
        exact ih (List.Nodup.of_cons h)

theorem sideKeys_setLevel (b : SideBook) (p q : ℚ) (h : p ∈ sideKeys b) :
    sideKeys (setLevel b p q) = sideKeys b := by
  induction b with
  | nil => cases h
  | cons hd tl ih =>
      obtain ⟨a, b0⟩ := hd
      rw [setLevel_cons]
      by_cases hh : a = p
      · subst hh
        rw [if_pos rfl]
        rfl
      · rw [if_neg hh]
        have : p ∈ sideKeys tl := by
          rcases List.mem_cons.mp h with h1 | h1
          · exact absurd h1.symm hh
          · exact h1
        show a :: sideKeys (setLevel tl p q) = a :: sideKeys tl
        rw [ih this]

theorem sideKeys_setLevel_not_mem (b : SideBook) (p q : ℚ) (h : p ∉ sideKeys b) :
    sideKeys (setLevel b p q) = sideKeys b ++ [p] := by
  induction b with
  | nil => rfl
  | cons hd tl ih =>
      obtain ⟨a, b0⟩ := hd
      have hkeys : sideKeys ((a, b0) :: tl) = a :: sideKeys tl := rfl
      rw [hkeys] at h
      rw [setLevel_cons]
      by_cases hh : a = p
      · exact absurd (hh ▸ List.mem_cons_self a (sideKeys tl)) h
      · rw [if_neg hh]
        show a :: sideKeys (setLevel tl p q) = (a :: sideKeys tl) ++ [p]
        rw [ih (fun hm => h (List.mem_cons_of_mem a hm))]
        rfl

theorem sideKeys_setLevel_nodup (b : SideBook) (p q : ℚ) (h : (sideKeys b).Nodup) :
    (sideKeys (setLevel b p q)).Nodup := by
  by_cases hm : p ∈ sideKeys b
  · rw [sideKeys_setLevel b p q hm]
    exact h
  · rw [sideKeys_setLevel_not_mem b p q hm]
    simpa [List.nodup_append] using ⟨h, hm⟩

theorem sideKeys_popLevel_sublist (b : SideBook) (p : ℚ) :
    (sideKeys (popLevel b p)).Sublist (sideKeys b) := by
  induction b with
  | nil => simp [popLevel]
  | cons hd tl ih =>
      obtain ⟨a, b0⟩ := hd
      rw [popLevel_cons]
      by_cases hh : a = p
      · rw [if_pos hh]
        exact List.sublist_cons_self a (sideKeys tl)
      · rw [if_neg hh]
        exact ih.cons₂ a

theorem sideKeys_popLevel_nodup (b : SideBook) (p : ℚ) (h : (sideKeys b).Nodup) :
    (sideKeys (popLevel b p)).Nodup :=
  (sideKeys_popLevel_sublist b p).nodup h

theorem lookupLevel_applyLevel_self (b : SideBook) (p q : ℚ) (h : (sideKeys b).Nodup) :
    lookupLevel (applyLevel b p q) p = if 0 < q then some q else none := by
  by_cases hq : q ≤ 0
  · rw [if_neg (by linarith)]
    rw [applyLevel, if_pos hq]
    exact lookupLevel_popLevel_self b p h
  · rw [if_pos (by linarith)]
    rw [applyLevel, if_neg hq]
    exact lookupLevel_setLevel_self b p q

theorem lookupLevel_applyLevel_ne (b : SideBook) (p q p' : ℚ) (h : p' ≠ p) :
    lookupLevel (applyLevel b p q) p' = lookupLevel b p' := by
  by_cases hq : q ≤ 0
  · rw [applyLevel, if_pos hq]
    exact lookupLevel_popLevel_ne b p p' h
  · rw [applyLevel, if_neg hq]
    exact lookupLevel_setLevel_ne b p q p' h

theorem sideKeys_applyLevel_nodup (b : SideBook) (p q : ℚ) (h : (sideKeys b).Nodup) :
    (sideKeys (applyLevel b p q)).Nodup := by
  by_cases hq : q ≤ 0
  · rw [applyLevel, if_pos hq]
    exact sideKeys_popLevel_nodup b p h
  · rw [applyLevel, if_neg hq]
    exact sideKeys_setLevel_nodup b p q h

theorem SideInv.applyLevel (b : SideBook) (p q : ℚ) (h : SideInv b) :
    SideInv (WallBot.applyLevel b p q) := by
  obtain ⟨hn, hpos⟩ := h
  refine ⟨sideKeys_applyLevel_nodup b p q hn, ?_⟩
  intro p' q' hq'
  by_cases hp : p' = p
  · subst hp
    rw [lookupLevel_applyLevel_self b p' q hn] at hq'
    by_cases h0 : 0 < q
    · rw [if_pos h0] at hq'
      cases hq'
      exact h0
    · rw [if_neg h0] at hq'
      cases hq'
  · rw [lookupLevel_applyLevel_ne b p q p' hp] at hq'
    exact hpos p' q' hq'

theorem SideInv.applyLevels (b : SideBook) (levels : List Level) (h : SideInv b) :
    SideInv (WallBot.applyLevels b levels) := by
  induction levels generalizing b with
  | nil => simpa [WallBot.applyLevels]
  | cons hd tl ih =>
      rw [WallBot.applyLevels, List.foldl_cons]
      exact ih (WallBot.applyLevel b hd.1 hd.2) (h.applyLevel b hd.1 hd.2)

theorem SideInv.nil : SideInv [] := by
  constructor
  · simp [sideKeys]
  · intro p q h
    cases h

theorem lookupLevel_applyLevels_not_mem (b : SideBook) (levels : List Level) (p : ℚ)
    (h : p ∉ levels.map Prod.fst) :
    lookupLevel (applyLevels b levels) p = lookupLevel b p := by
  induction levels generalizing b with
  | nil => rfl
  | cons hd tl ih =>
      rw [List.map_cons] at h
      rw [applyLevels, List.foldl_cons, ← applyLevels,
        ih (applyLevel b hd.1 hd.2) (fun hm => h (List.mem_cons_of_mem _ hm)),
        lookupLevel_applyLevel_ne b hd.1 hd.2 p
          (fun hp => h (hp ▸ List.mem_cons_self hd.1 _))]

theorem lookupLevel_applyLevels_mem (b : SideBook) (levels : List Level) (p q : ℚ)
    (hb : (sideKeys b).Nodup) (hl : (levels.map Prod.fst).Nodup)
    (hmem : (p, q) ∈ levels) :
    lookupLevel (applyLevels b levels) p = if 0 < q then some q else none := by
  induction levels generalizing b with
  | nil => cases hmem
  | cons hd tl ih =>
      rw [List.map_cons] at hl
      rcases List.mem_cons.mp hmem with heq | htl
      · rw [applyLevels, List.foldl_cons, ← applyLevels,
          lookupLevel_applyLevels_not_mem _ tl p (by
            have := List.Nodup.not_mem hl
            rw [← heq] at this
            simpa using this),
          ← heq, lookupLevel_applyLevel_self b p q hb]
      · rw [applyLevels, List.foldl_cons, ← applyLevels,
          ih (applyLevel b hd.1 hd.2) (sideKeys_applyLevel_nodup b hd.1 hd.2 hb)
            (List.Nodup.of_cons hl) htl]

/-! ## C7: book positivity invariant and zero-quantity removal -/

theorem lookupLevel_loadSide (levels : List Level) (p q : ℚ)
    (h : (levels.map Prod.fst).Nodup) :
    lookupLevel (applyLevels [] levels) p = some q ↔ (p, q) ∈ levels ∧ 0 < q := by
  constructor
  · intro hs
    by_cases hmem : p ∈ levels.map Prod.fst
    · obtain ⟨x, hx, hx1⟩ := List.mem_map.mp hmem
      have hx2 : (p, x.2) ∈ levels := by
        have : x = (p, x.2) := by
          rw [← hx1]
        rwa [this] at hx
      rw [lookupLevel_applyLevels_mem [] levels p x.2 (by simp [sideKeys]) h hx2] at hs
      by_cases h0 : 0 < x.2
      · rw [if_pos h0] at hs
        cases hs
        exact ⟨hx2, h0⟩
      · rw [if_neg h0] at hs
        cases hs
    · rw [lookupLevel_applyLevels_not_mem [] levels p hmem] at hs
      cases hs
  · rintro ⟨hm, h0⟩
    rw [lookupLevel_applyLevels_mem [] levels p q (by simp [sideKeys]) h hm, if_pos h0]

/-- C7: applying a depth diff preserves the invariant that every stored price
has strictly positive quantity (and unique keys); a non-positive quantity
update removes the price binding, and `qty_at` then reports 0 on either
side. -/
theorem C7_book_positivity_and_zero_removal :
    ∀ (n : ℕ) (bk : Book) (e : DepthEvent) (b : SideBook) (p q : ℚ),
      (BookInv bk → BookInv (applyDepthUpdate n bk e).1) ∧
      ((sideKeys b).Nodup → q ≤ 0 → hasPrice b p = true →
        lookupLevel (applyLevel b p q) p = none) ∧
      ((sideKeys bk.bids).Nodup → (sideKeys bk.asks).Nodup → q ≤ 0 →
        qtyAt { bk with bids := applyLevel bk.bids p q } .bid p = 0 ∧
        qtyAt { bk with asks := applyLevel bk.asks p q } .ask p = 0) := by
  intro n bk e b p q
  refine ⟨?_, ?_, ?_⟩
  · rintro ⟨hb, ha⟩
    exact ⟨hb.applyLevels bk.bids e.b, ha.applyLevels bk.asks e.a⟩
  · intro hn hq _
    rw [applyLevel, if_pos hq]
    exact lookupLevel_popLevel_self b p hn
  · intro hnb hna hq
    constructor
    · show (lookupLevel (applyLevel bk.bids p q) p).getD 0 = 0
      rw [applyLevel, if_pos hq, lookupLevel_popLevel_self bk.bids p hnb]
      rfl
    · show (lookupLevel (applyLevel bk.asks p q) p).getD 0 = 0
      rw [applyLevel, if_pos hq, lookupLevel_popLevel_self bk.asks p hna]
      rfl

theorem demoBk_inv : BookInv demoBk := by
  constructor <;> refine ⟨by simp [demoBk, sideKeys], ?_⟩ <;> intro p q h
  · by_cases hp : (100 : ℚ) = p
    · rw [demoBk] at h
      rw [lookupLevel_cons, if_pos hp] at h
      cases h
      norm_num
    · rw [demoBk] at h
      rw [lookupLevel_cons, if_neg hp] at h
      cases h
  · by_cases hp : (101 : ℚ) = p
    · rw [demoBk] at h
      rw [lookupLevel_cons, if_pos hp] at h
      cases h
      norm_num
    · rw [demoBk] at h
      rw [lookupLevel_cons, if_neg hp] at h
      cases h

theorem C7_witness :
    BookInv demoBk ∧ (0 : ℚ) ≤ 0 ∧ hasPrice demoBk.bids 100 = true ∧
    BookInv (applyDepthUpdate 5 demoBk
      { U := 1, u := 2, pu := some 1, b := [(100, 0)], a := [(102, 3)] }).1 ∧
    lookupLevel (applyLevel demoBk.bids 100 0) 100 = none ∧
    qtyAt { demoBk with bids := applyLevel demoBk.bids 100 0 } .bid 100 = 0 := by
  have h := C7_book_positivity_and_zero_removal 5
    demoBk { U := 1, u := 2, pu := some 1, b := [(100, 0)], a := [(102, 3)] }
    demoBk.bids 100 0
  have hnb : (sideKeys demoBk.bids).Nodup := by simp [demoBk, sideKeys]
  have hna : (sideKeys demoBk.asks).Nodup := by simp [demoBk, sideKeys]
  have hpr : hasPrice demoBk.bids 100 = true := by
    rw [demoBk]
    rfl
  exact ⟨demoBk_inv, le_refl 0, hpr, h.1 demoBk_inv,
    h.2.1 hnb (le_refl 0) hpr, (h.2.2 hnb hna (le_refl 0)).1⟩

/-! ## C5: applySnapshot replaces all state -/

/-- C5: the (spec-modelled) `load_snapshot` builds the book from the snapshot
alone — the resulting sides hold exactly the snapshot's positive-quantity
levels, independent of any prior book contents (the prior book is not even an
input of the spec's atomic replacement). -/
theorem C5_applySnapshot_replaces_state :
    ∀ (bids asks : List Level) (p q : ℚ),
      (bids.map Prod.fst).Nodup → (asks.map Prod.fst).Nodup →
      ((lookupLevel (loadSnapshot bids asks).bids p = some q ↔ (p, q) ∈ bids ∧ 0 < q) ∧
       (lookupLevel (loadSnapshot bids asks).asks p = some q ↔ (p, q) ∈ asks ∧ 0 < q)) := by
  intro bids asks p q hb ha
  constructor
  · show lookupLevel (applyLevels [] bids) p = some q ↔ _
    exact lookupLevel_loadSide bids p q hb
  · show lookupLevel (applyLevels [] asks) p = some q ↔ _
    exact lookupLevel_loadSide asks p q ha

theorem C5_witness :
    ((([(100, 5), (99, 0)] : List Level).map Prod.fst).Nodup ∧
      (([(101, 4)] : List Level).map Prod.fst).Nodup) ∧
    (lookupLevel (loadSnapshot [(100, 5), (99, 0)] [(101, 4)]).bids 100 = some 5 ∧
      lookupLevel (loadSnapshot [(100, 5), (99, 0)] [(101, 4)]).bids 99 ≠ some 0) := by
  have hb : (([(100, 5), (99, 0)] : List Level).map Prod.fst).Nodup := by norm_num
  have ha : (([(101, 4)] : List Level).map Prod.fst).Nodup := by norm_num
  have h100 := (C5_applySnapshot_replaces_state [(100, 5), (99, 0)] [(101, 4)] 100 5 hb ha).1
  have h99 := (C5_applySnapshot_replaces_state [(100, 5), (99, 0)] [(101, 4)] 99 0 hb ha).1
  refine ⟨⟨hb, ha⟩, h100.mpr (by norm_num), fun hc => ?_⟩
  have := h99.mp hc
  norm_num at this

/-! ## C6: stale diff is a no-op -/

/-- C6: when synced, a diff with `u < cursor` leaves the book, the cursor, the
top view, the synced flag and the resync flag untouched and logs nothing at
warning level (it is not an error and forces no resync). -/
theorem C6_stale_diff_noop :
    ∀ (cfg : DetectorCfg) (s : AppState) (e : DepthEvent) (now : ℚ),
      s.synced = true → e.u < s.lastUpdateId →
      (onDepthMessage cfg s e now).book = s.book ∧
      (onDepthMessage cfg s e now).lastUpdateId = s.lastUpdateId ∧
      (onDepthMessage cfg s e now).lastState = s.lastState ∧
      (onDepthMessage cfg s e now).synced = true ∧
      (onDepthMessage cfg s e now).resyncing = s.resyncing ∧
      (onDepthMessage cfg s e now).logWarnings = s.logWarnings := by
  intro cfg s e now hsync hstale
  have happly : applyDepthEvent cfg s e = (true, s) := by
    rw [applyDepthEvent, if_pos hstale]
  have hmsg : onDepthMessage cfg s e now = processStateUpdate cfg s now := by
    rw [onDepthMessage, if_neg (by rw [hsync]; exact fun h => h rfl), happly]
    rfl
  rw [hmsg]
  exact ⟨rfl, rfl, rfl, hsync, rfl, rfl⟩

theorem C6_witness :
    syncedState.synced = true ∧ staleDiff.u < syncedState.lastUpdateId ∧
    (onDepthMessage demoCfg syncedState staleDiff 1).book = syncedState.book ∧
    (onDepthMessage demoCfg syncedState staleDiff 1).lastUpdateId =
      syncedState.lastUpdateId ∧
    (onDepthMessage demoCfg syncedState staleDiff 1).synced = true := by
  have h := C6_stale_diff_noop demoCfg syncedState staleDiff 1 rfl (by norm_num [staleDiff, syncedState])
  exact ⟨rfl, by norm_num [staleDiff, syncedState], h.1, h.2.1, h.2.2.2.1⟩

/-! ## C2: gap forces full reset -/

/-- C2: from a synced state with cursor `C`, a diff with `u ≥ C` whose
predecessor id differs from `C` flips `synced` off, resets the cursor to 0,
clears the book, resets the detector (tracked walls and all cooldown
timestamps), and logs the mismatch at warning level. -/
theorem C2_gap_forces_full_reset :
    ∀ (cfg : DetectorCfg) (s : AppState) (e : DepthEvent) (now : ℚ) (p : ℕ),
      s.synced = true → e.pu = some p → p ≠ s.lastUpdateId → s.lastUpdateId ≤ e.u →
      (onDepthMessage cfg s e now).synced = false ∧
      (onDepthMessage cfg s e now).resyncing = true ∧
      (onDepthMessage cfg s e now).lastUpdateId = 0 ∧
      (onDepthMessage cfg s e now).book = clearBook ∧
      (onDepthMessage cfg s e now).detector = resetDetector ∧
      s.logWarnings < (onDepthMessage cfg s e now).logWarnings := by
  intro cfg s e now p hsync hpu hne hge
  have happly : applyDepthEvent cfg s e =
      (false, { s with logWarnings := s.logWarnings + 1 }) := by
    rw [applyDepthEvent, if_neg (Nat.not_lt.mpr hge), hpu]
    rw [if_pos (by simpa using hne)]
  have hmsg : onDepthMessage cfg s e now =
      startResyncLocked { s with logWarnings := s.logWarnings + 2 } := by
    rw [onDepthMessage, if_neg (by rw [hsync]; exact fun h => h rfl), happly]
    rfl
  rw [hmsg]
  refine ⟨rfl, rfl, rfl, rfl, rfl, ?_⟩
  show s.logWarnings < s.logWarnings + 2
  omega

/-- A gap diff at cursor 103: `pu = 104 ≠ 103`, `u = 106 ≥ 103` (the §8
end-to-end scenario's final step). -/
theorem C2_witness :
    syncedState.synced = true ∧ demoGapDiff.pu = some 104 ∧
    104 ≠ syncedState.lastUpdateId ∧ syncedState.lastUpdateId ≤ demoGapDiff.u ∧
    (onDepthMessage demoCfg syncedState demoGapDiff 1).synced = false ∧
    (onDepthMessage demoCfg syncedState demoGapDiff 1).lastUpdateId = 0 ∧
    (onDepthMessage demoCfg syncedState demoGapDiff 1).book = clearBook ∧
    (onDepthMessage demoCfg syncedState demoGapDiff 1).detector = resetDetector := by
  have h := C2_gap_forces_full_reset demoCfg syncedState demoGapDiff 1 104 rfl rfl
    (by norm_num [syncedState]) (by norm_num [syncedState, demoGapDiff])
  exact ⟨rfl, rfl, by norm_num [syncedState], by norm_num [syncedState, demoGapDiff],
    h.1, h.2.2.1, h.2.2.2.1, h.2.2.2.2.1⟩

/-! ## C1: snapshot straddle invariant -/

theorem findStraddle_eq_none (target : ℕ) (l : List DepthEvent)
    (h : ∀ e ∈ l, ¬ (e.U ≤ target ∧ target ≤ e.u)) : findStraddle target l = none := by
  induction l with
  | nil => rfl
  | cons hd tl ih =>
      rw [findStraddle, if_neg (h hd (List.mem_cons_self hd tl))]
      exact ih fun e he => h e (List.mem_cons_of_mem hd he)

theorem findStraddle_some (target : ℕ) (l : List DepthEvent) (e : DepthEvent)
    (rest : List DepthEvent) (h : findStraddle target l = some (e, rest)) :
    e ∈ l ∧ e.U ≤ target ∧ target ≤ e.u := by
  induction l with
  | nil => cases h
  | cons hd tl ih =>
      rw [findStraddle] at h
      by_cases hc : hd.U ≤ target ∧ target ≤ hd.u
      · rw [if_pos hc] at h
        simp only [Option.some.injEq, Prod.mk.injEq] at h
        obtain ⟨he, hr⟩ := h
        subst he
        exact ⟨List.mem_cons_self _ _, hc⟩
      · rw [if_neg hc] at h
        obtain ⟨hm, hc'⟩ := ih h
        exact ⟨List.mem_cons_of_mem hd hm, hc'⟩

theorem trySync_shape (cfg : DetectorCfg) (snap : Snapshot) (s : AppState) (now : ℚ) :
    ((trySyncFromSnapshot cfg snap s now).1 = false ∧
      (trySyncFromSnapshot cfg snap s now).2.synced = s.synced ∧
      (trySyncFromSnapshot cfg snap s now).2.book = s.book ∧
      (trySyncFromSnapshot cfg snap s now).2.lastUpdateId = s.lastUpdateId ∧
      (trySyncFromSnapshot cfg snap s now).2.depthBuffer = s.depthBuffer ∧
      findStraddle (snap.lastUpdateId + 1)
        (s.depthBuffer.filter fun e => decide (snap.lastUpdateId + 1 ≤ e.u)) = none) ∨
    ((trySyncFromSnapshot cfg snap s now).1 = false ∧
      ∃ e rest, findStraddle (snap.lastUpdateId + 1)
        (s.depthBuffer.filter fun e => decide (snap.lastUpdateId + 1 ≤ e.u)) =
          some (e, rest)) ∨
    ((trySyncFromSnapshot cfg snap s now).2.synced = true ∧
      ∃ e rest, findStraddle (snap.lastUpdateId + 1)
        (s.depthBuffer.filter fun e => decide (snap.lastUpdateId + 1 ≤ e.u)) =
          some (e, rest)) := by
  simp only [trySyncFromSnapshot]
  split
  · next hempty =>
      left
      refine ⟨rfl, rfl, rfl, rfl, rfl, ?_⟩
      rw [List.isEmpty_iff.mp hempty]
      rfl
  · split
    · next heq => exact Or.inl ⟨rfl, rfl, rfl, rfl, rfl, heq⟩
    · next e rest heq =>
        split
        · exact Or.inr (Or.inl ⟨rfl, e, rest, heq⟩)
        · split
          · exact Or.inr (Or.inl ⟨rfl, e, rest, heq⟩)
          · exact Or.inr (Or.inr ⟨rfl, e, rest, heq⟩)

/-- C1: a sync attempt succeeds only by splicing at a buffered diff whose
range `[U, u]` straddles `snapshot_id + 1` (that diff is, by construction of
`trySyncFromSnapshot`, the first diff applied after the snapshot is loaded);
when no buffered diff straddles the target the attempt returns false with the
state untouched except for the failure warning — in particular the state is
never marked synced. -/
theorem C1_snapshot_straddle :
    ∀ (cfg : DetectorCfg) (snap : Snapshot) (s : AppState) (now : ℚ),
      ((∀ e ∈ s.depthBuffer,
          ¬ (e.U ≤ snap.lastUpdateId + 1 ∧ snap.lastUpdateId + 1 ≤ e.u)) →
        (trySyncFromSnapshot cfg snap s now).1 = false ∧
        (trySyncFromSnapshot cfg snap s now).2.synced = s.synced ∧
        (trySyncFromSnapshot cfg snap s now).2.book = s.book ∧
        (trySyncFromSnapshot cfg snap s now).2.lastUpdateId = s.lastUpdateId ∧
        (trySyncFromSnapshot cfg snap s now).2.depthBuffer = s.depthBuffer) ∧
      ((trySyncFromSnapshot cfg snap s now).1 = true →
        (trySyncFromSnapshot cfg snap s now).2.synced = true ∧
        ∃ e rest,
          findStraddle (snap.lastUpdateId + 1)
            (s.depthBuffer.filter fun e => decide (snap.lastUpdateId + 1 ≤ e.u)) =
            some (e, rest) ∧
          e ∈ s.depthBuffer ∧ e.U ≤ snap.lastUpdateId + 1 ∧
          snap.lastUpdateId + 1 ≤ e.u) := by
  intro cfg snap s now
  constructor
  · intro h
    have hfs : findStraddle (snap.lastUpdateId + 1)
        (s.depthBuffer.filter fun e => decide (snap.lastUpdateId + 1 ≤ e.u)) = none :=
      findStraddle_eq_none _ _ fun e he => h e (List.mem_of_mem_filter he)
    rcases trySync_shape cfg snap s now with hc | hc | hc
    · exact ⟨hc.1, hc.2.1, hc.2.2.1, hc.2.2.2.1, hc.2.2.2.2.1⟩
    · obtain ⟨_, e, rest, heq⟩ := hc
      rw [hfs] at heq
      cases heq
    · obtain ⟨_, e, rest, heq⟩ := hc
      rw [hfs] at heq
      cases heq
  · intro hs
    rcases trySync_shape cfg snap s now with hc | hc | hc
    · rw [hc.1] at hs
      cases hs
    · rw [hc.1] at hs
      cases hs
    · obtain ⟨hsync, e, rest, heq⟩ := hc
      obtain ⟨hm, h1, h2⟩ := findStraddle_some _ _ _ _ heq
      exact ⟨hsync, e, rest, heq, List.mem_of_mem_filter hm, h1, h2⟩

/-- §8 end-to-end witness: snapshot id 100 with buffered diffs
`[U=95, u=101]` and `[U=102, u=103]` syncs (the splice diff straddles 101),
ends synced at cursor 103 with an empty retained buffer. -/
theorem C1_witness :
    (trySyncFromSnapshot demoCfg demoSnapshot demoPreSync 0).1 = true ∧
    (trySyncFromSnapshot demoCfg demoSnapshot demoPreSync 0).2.synced = true ∧
    (∃ e rest,
      findStraddle (demoSnapshot.lastUpdateId + 1)
        (demoPreSync.depthBuffer.filter
          fun e => decide (demoSnapshot.lastUpdateId + 1 ≤ e.u)) = some (e, rest) ∧
      e ∈ demoPreSync.depthBuffer ∧ e.U ≤ demoSnapshot.lastUpdateId + 1 ∧
      demoSnapshot.lastUpdateId + 1 ≤ e.u) ∧
    (trySyncFromSnapshot demoCfg demoSnapshot demoPreSync 0).2.lastUpdateId = 103 := by
  have h1 : (trySyncFromSnapshot demoCfg demoSnapshot demoPreSync 0).1 = true := by
    norm_num +decide [trySyncFromSnapshot, demoCfg, demoSnapshot, demoPreSync, demoDiff1,
      demoDiff2, clearBook, resetDetector, findStraddle, applyDepthEventBootstrap,
      applyBuffered, applyDepthEvent, applyDepthUpdate, applyLevels, applyLevel,
      setLevel, popLevel, topLevels, sortBy, insertSorted, processStateUpdate,
      processDetector, trackNewWalls, dropLoop, dropStep, buildCandidate, promoteBest, mkDropEvent, checkDrops, calcImbalance,
      calcSpreadBps, calcMid, medianQ, qtyAt, lookupLevel, DetectorState.walls,
      DetectorState.setWalls, DetectorState.setLevelTs, DetectorState.setGlobalTs,
      DetectorState.lastSignalTs, DetectorState.setLastSignalTs, loadSnapshot]
  have h := (C1_snapshot_straddle demoCfg demoSnapshot demoPreSync 0).2 h1
  refine ⟨h1, h.1, h.2, ?_⟩
  norm_num +decide [trySyncFromSnapshot, demoCfg, demoSnapshot, demoPreSync, demoDiff1,
    demoDiff2, clearBook, resetDetector, findStraddle, applyDepthEventBootstrap,
    applyBuffered, applyDepthEvent, applyDepthUpdate, applyLevels, applyLevel,
    setLevel, popLevel, topLevels, sortBy, insertSorted, processStateUpdate,
    processDetector, trackNewWalls, dropLoop, dropStep, buildCandidate, promoteBest, mkDropEvent, checkDrops, calcImbalance,
    calcSpreadBps, calcMid, medianQ, qtyAt, lookupLevel, DetectorState.walls,
    DetectorState.setWalls, DetectorState.setLevelTs, DetectorState.setGlobalTs,
    DetectorState.lastSignalTs, DetectorState.setLastSignalTs, loadSnapshot]

/-! ## Detector state helper lemmas -/

theorem walls_setWalls_self (d : DetectorState) (side : Side) (w : List (ℚ × WallInfo)) :
    (d.setWalls side w).walls side = w := by
  cases side <;> rfl

theorem lastGlobal_setWalls (d : DetectorState) (side : Side) (w : List (ℚ × WallInfo)) :
    (d.setWalls side w).lastGlobalSignalTs = d.lastGlobalSignalTs := by
  cases side <;> rfl

theorem lastGlobal_setLastSignalTs (d : DetectorState) (dir : Direction) (ts : ℚ) :
    (d.setLastSignalTs dir ts).lastGlobalSignalTs = d.lastGlobalSignalTs := by
  cases dir <;> rfl

theorem walls_setLevelTs (d : DetectorState) (m : List ((Side × ℚ) × ℚ)) (side : Side) :
    (d.setLevelTs m).walls side = d.walls side := by
  cases side <;> rfl

/-! ## C10: global cooldown caps a single process call at one event -/

theorem checkDrops_none_of_global (cfg : DetectorCfg) (d : DetectorState) (side : Side)
    (imbalance : ℚ) (qtyF : Side → ℚ → ℚ) (now mid bestBid bestAsk : ℚ)
    (h : now - d.lastGlobalSignalTs < cfg.globalCooldownSec) :
    (checkDrops cfg d side imbalance qtyF now mid bestBid bestAsk).1 = none := by
  simp only [checkDrops]
  split
  · rfl
  · by_cases h1 : now - d.lastSignalTs
        (if side = Side.bid then Direction.short else Direction.long) <
        cfg.signalCooldownSec
    · rw [if_pos h1]
    · rw [if_neg h1, if_pos h]

theorem checkDrops_global_of_some (cfg : DetectorCfg) (d : DetectorState) (side : Side)
    (imbalance : ℚ) (qtyF : Side → ℚ → ℚ) (now mid bestBid bestAsk : ℚ)
    (ev : SignalEvent)
    (h : (checkDrops cfg d side imbalance qtyF now mid bestBid bestAsk).1 = some ev) :
    (checkDrops cfg d side imbalance qtyF now mid bestBid bestAsk).2.lastGlobalSignalTs =
      now := by
  simp only [checkDrops] at h ⊢
  split at h
  · cases h
  · next b bp heq =>
      by_cases h1 : now - d.lastSignalTs
          (if side = Side.bid then Direction.short else Direction.long) <
          cfg.signalCooldownSec
      · rw [if_pos h1] at h
        cases h
      · rw [if_neg h1] at h ⊢
        by_cases h2 : now - d.lastGlobalSignalTs < cfg.globalCooldownSec
        · rw [if_pos h2] at h
          cases h
        · rw [if_neg h2] at h ⊢
          rw [lastGlobal_setWalls]
          rfl

theorem twoChecks_length (cfg : DetectorCfg) (d : DetectorState)
    (imbalance : ℚ) (qtyF : Side → ℚ → ℚ) (now mid bestBid bestAsk : ℚ)
    (hgc : 0 < cfg.globalCooldownSec) :
    ((match (checkDrops cfg d .bid imbalance qtyF now mid bestBid bestAsk).1 with
        | some e => [e] | none => []) ++
      (match (checkDrops cfg
          (checkDrops cfg d .bid imbalance qtyF now mid bestBid bestAsk).2 .ask
          imbalance qtyF now mid bestBid bestAsk).1 with
        | some e => [e] | none => [])).length ≤ 1 := by
  cases hb : (checkDrops cfg d .bid imbalance qtyF now mid bestBid bestAsk).1 with
  | none =>
      cases ha : (checkDrops cfg
          (checkDrops cfg d .bid imbalance qtyF now mid bestBid bestAsk).2 .ask
          imbalance qtyF now mid bestBid bestAsk).1 with
      | none => simp [hb, ha]
      | some e => simp [hb, ha]
  | some e =>
      have hg := checkDrops_global_of_some cfg d .bid imbalance qtyF now mid
        bestBid bestAsk e hb
      have ha : (checkDrops cfg
          (checkDrops cfg d .bid imbalance qtyF now mid bestBid bestAsk).2 .ask
          imbalance qtyF now mid bestBid bestAsk).1 = none := by
        refine checkDrops_none_of_global cfg _ .ask imbalance qtyF now mid
          bestBid bestAsk ?_
        rw [hg]
        simpa using hgc
      simp [hb, ha]

/-- C10: with a positive global cooldown, a single `process` call emits at
most one event in total — an emitted bid-side event stamps the global
cooldown with `now`, so the ask side's check in the same call is always
suppressed; and the two-events-per-call capacity is reachable when the global
cooldown is zero. -/
theorem C10_global_cooldown_single_event :
    (∀ (cfg : DetectorCfg) (d : DetectorState) (st : OrderBookState)
        (qtyF : Side → ℚ → ℚ) (now : ℚ),
      0 < cfg.globalCooldownSec → (processDetector cfg d st qtyF now).1.length ≤ 1) ∧
    demoCfg.globalCooldownSec = 0 ∧
    (processDetector demoCfg twoSidedWalls twoSidedBook zeroQty 10).1.length = 2 := by
  refine ⟨?_, rfl, ?_⟩
  · intro cfg d st qtyF now hgc
    simp only [processDetector]
    exact twoChecks_length cfg _ _ qtyF now _ _ _ hgc
  · norm_num +decide [processDetector, trackNewWalls, dropLoop, dropStep, buildCandidate, promoteBest, mkDropEvent, checkDrops,
      calcImbalance, calcSpreadBps, calcMid, medianQ, sortBy, insertSorted, classify,
      calcTouchBps, allowLevelSignal, lookupTs, setTs, bucketKey, round8,
      roundHalfEven, pyInt, isBetterEvent, lookupWall, popWall, demoCfg,
      twoSidedWalls, twoSidedBook, zeroQty, DetectorState.walls,
      DetectorState.setWalls, DetectorState.setLevelTs, DetectorState.setGlobalTs,
      DetectorState.lastSignalTs, DetectorState.setLastSignalTs]

theorem C10_witness :
    (0 : ℚ) < 1 ∧
    (processDetector { demoCfg with globalCooldownSec := 1 } twoSidedWalls
      twoSidedBook zeroQty 10).1.length ≤ 1 :=
  ⟨by norm_num,
    C10_global_cooldown_single_event.1 { demoCfg with globalCooldownSec := 1 }
      twoSidedWalls twoSidedBook zeroQty 10 (by norm_num)⟩

/-! ## The `_check_drops` loop: step characterization -/

theorem lookupWall_cons (a : ℚ) (i : WallInfo) (tl : List (ℚ × WallInfo)) (p : ℚ) :
    lookupWall ((a, i) :: tl) p = if a = p then some i else lookupWall tl p := rfl

theorem popWall_cons (a : ℚ) (i : WallInfo) (tl : List (ℚ × WallInfo)) (p : ℚ) :
    popWall ((a, i) :: tl) p = if a = p then tl else (a, i) :: popWall tl p := rfl

theorem lookupWall_popWall_ne (ws : List (ℚ × WallInfo)) (p p' : ℚ) (h : p' ≠ p) :
    lookupWall (popWall ws p) p' = lookupWall ws p' := by
  induction ws with
  | nil => rfl
  | cons hd tl ih =>
      obtain ⟨a, i⟩ := hd
      rw [popWall_cons]
      by_cases hh : a = p
      · subst hh
        rw [if_pos rfl, lookupWall_cons, if_neg (fun hh => h hh.symm)]
      · rw [if_neg hh, lookupWall_cons, lookupWall_cons, ih]

theorem lookupWall_of_mem_nodup (ws : List (ℚ × WallInfo)) (p : ℚ) (i : WallInfo)
    (hn : (ws.map Prod.fst).Nodup) (hm : (p, i) ∈ ws) : lookupWall ws p = some i := by
  induction ws with
  | nil => cases hm
  | cons hd tl ih =>
      rw [List.map_cons] at hn
      obtain ⟨hhd, htl⟩ := List.nodup_cons.mp hn
      rcases List.mem_cons.mp hm with heq | hmem
      · rw [← heq, lookupWall_cons, if_pos rfl]
      · have hne : hd.1 ≠ p := by
          intro hcontra
          exact hhd (hcontra ▸ List.mem_map_of_mem Prod.fst hmem)
        obtain ⟨a, i'⟩ := hd
        rw [lookupWall_cons, if_neg hne]
        exact ih htl hmem

/-- The promotion stage never touches the walls and either keeps the best
candidate or promotes the current price with a score computed by the
`int(min(100, ...))` formula over the event's own recorded fields. -/
theorem promoteBest_shape (side : Side) (imb now bb ba price : ℚ) (info : WallInfo)
    (age currentQty dropPct : ℚ) (fullRemove : Bool) (eventType : EventType)
    (touchBps : ℚ) (levelTs : List ((Side × ℚ) × ℚ)) (st : DropLoopSt) :
    (promoteBest side imb now bb ba price info age currentQty dropPct fullRemove
        eventType touchBps levelTs st).walls = st.walls ∧
    ((promoteBest side imb now bb ba price info age currentQty dropPct fullRemove
        eventType touchBps levelTs st).best = st.best ∨
      ∃ ev, (promoteBest side imb now bb ba price info age currentQty dropPct
          fullRemove eventType touchBps levelTs st).best = some (ev, price) ∧
        emittedScoreEq ev) := by
  set st' := promoteBest side imb now bb ba price info age currentQty dropPct
    fullRemove eventType touchBps levelTs st with hst
  clear_value st'
  rw [promoteBest] at hst
  split at hst
  · exact ⟨by rw [hst], Or.inr ⟨mkDropEvent side imb now bb ba price info age
      currentQty dropPct fullRemove eventType touchBps, by rw [hst], rfl⟩⟩
  · next b bp heq =>
      split at hst
      · exact ⟨by rw [hst], Or.inr ⟨mkDropEvent side imb now bb ba price info age
          currentQty dropPct fullRemove eventType touchBps, by rw [hst], rfl⟩⟩
      · exact ⟨by rw [hst], Or.inl (by rw [hst, heq])⟩

/-- The filter stage never touches the walls and either keeps the best
candidate or promotes the current price. -/
theorem buildCandidate_shape (cfg : DetectorCfg) (side : Side)
    (imb now mid bb ba price : ℚ) (info : WallInfo) (age currentQty : ℚ)
    (st : DropLoopSt) :
    (buildCandidate cfg side imb now mid bb ba price info age currentQty st).walls =
        st.walls ∧
    ((buildCandidate cfg side imb now mid bb ba price info age currentQty st).best =
        st.best ∨
      ∃ ev, (buildCandidate cfg side imb now mid bb ba price info age
          currentQty st).best = some (ev, price) ∧ emittedScoreEq ev) := by
  set st' := buildCandidate cfg side imb now mid bb ba price info age currentQty st
    with hst
  clear_value st'
  rw [buildCandidate] at hst
  simp only [] at hst
  split at hst
  · exact ⟨by rw [hst], Or.inl (by rw [hst])⟩
  · split at hst
    · exact ⟨by rw [hst], Or.inl (by rw [hst])⟩
    · split at hst
      · exact ⟨by rw [hst], Or.inl (by rw [hst])⟩
      · split at hst
        · exact ⟨by rw [hst], Or.inl (by rw [hst])⟩
        · split at hst
          · exact ⟨by rw [hst], Or.inl (by rw [hst])⟩
          · split at hst
            · exact ⟨by rw [hst], Or.inl (by rw [hst])⟩
            · split at hst
              · exact ⟨by rw [hst], Or.inl (by rw [hst])⟩
              · split at hst
                · exact ⟨by rw [hst], Or.inl (by rw [hst])⟩
                · rw [hst]
                  exact promoteBest_shape side imb now bb ba price info age
                    currentQty _ _ _ _ _ st

/-- Each iteration of the `_check_drops` loop either leaves the walls and the
best candidate alone, or pops exactly the current item's price (TTL expiry or
non-positive tracked quantity) leaving the best alone, or leaves the walls
alone and may promote the current item to best with a score computed by the
`int(min(100, ...))` formula. -/
theorem dropStep_shape (cfg : DetectorCfg) (side : Side) (imb : ℚ)
    (qtyF : Side → ℚ → ℚ) (now mid bb ba : ℚ) (st : DropLoopSt)
    (item : ℚ × WallInfo) :
    ((dropStep cfg side imb qtyF now mid bb ba st item).walls = st.walls ∧
      (dropStep cfg side imb qtyF now mid bb ba st item).best = st.best) ∨
    ((dropStep cfg side imb qtyF now mid bb ba st item).walls =
        popWall st.walls item.1 ∧
      (dropStep cfg side imb qtyF now mid bb ba st item).best = st.best) ∨
    ((dropStep cfg side imb qtyF now mid bb ba st item).walls = st.walls ∧
      ∃ ev, (dropStep cfg side imb qtyF now mid bb ba st item).best =
          some (ev, item.1) ∧ emittedScoreEq ev) := by
  set st' := dropStep cfg side imb qtyF now mid bb ba st item with hst
  clear_value st'
  rw [dropStep] at hst
  split at hst
  · exact Or.inr (Or.inl ⟨by rw [hst], by rw [hst]⟩)
  · split at hst
    · exact Or.inl ⟨by rw [hst], by rw [hst]⟩
    · split at hst
      · exact Or.inr (Or.inl ⟨by rw [hst], by rw [hst]⟩)
      · rw [hst]
        obtain ⟨hw, hb⟩ := buildCandidate_shape cfg side imb now mid bb ba item.1
          item.2 (now - item.2.firstSeenTs) (qtyF side item.1) st
        rcases hb with hb | ⟨ev, hb, hsc⟩
        · exact Or.inl ⟨hw, hb⟩
        · exact Or.inr (Or.inr ⟨hw, ev, hb, hsc⟩)

/-! ## Fold invariants of the `_check_drops` loop -/

theorem dropFold_best_score (cfg : DetectorCfg) (side : Side) (imb : ℚ)
    (qtyF : Side → ℚ → ℚ) (now mid bb ba : ℚ) :
    ∀ (items : List (ℚ × WallInfo)) (st : DropLoopSt),
      (∀ e p, st.best = some (e, p) → emittedScoreEq e) →
      ∀ e p,
        (items.foldl (dropStep cfg side imb qtyF now mid bb ba) st).best =
          some (e, p) → emittedScoreEq e := by
  intro items
  induction items with
  | nil => exact fun st h e p hb => h e p hb
  | cons hd tl ih =>
      intro st h e p hb
      rw [List.foldl_cons] at hb
      refine ih _ ?_ e p hb
      intro e' p' hb'
      rcases dropStep_shape cfg side imb qtyF now mid bb ba st hd with
        ⟨_, h2⟩ | ⟨_, h2⟩ | ⟨_, ev, h2, hsc⟩
      · exact h e' p' (h2 ▸ hb')
      · exact h e' p' (h2 ▸ hb')
      · rw [h2] at hb'
        simp only [Option.some.injEq, Prod.mk.injEq] at hb'
        rw [← hb'.1]
        exact hsc

theorem dropFold_best_mem (cfg : DetectorCfg) (side : Side) (imb : ℚ)
    (qtyF : Side → ℚ → ℚ) (now mid bb ba : ℚ) :
    ∀ (items : List (ℚ × WallInfo)) (st : DropLoopSt),
      (items.map Prod.fst).Nodup →
      (∀ k i, (k, i) ∈ items → lookupWall st.walls k = some i) →
      (∀ e p, st.best = some (e, p) →
        (lookupWall st.walls p).isSome ∧ p ∉ items.map Prod.fst) →
      ∀ e p,
        (items.foldl (dropStep cfg side imb qtyF now mid bb ba) st).best =
          some (e, p) →
        (lookupWall
          (items.foldl (dropStep cfg side imb qtyF now mid bb ba) st).walls
          p).isSome := by
  intro items
  induction items with
  | nil => exact fun st _ _ hbest e p hb => (hbest e p hb).1
  | cons hd tl ih =>
      intro st hnodup hlk hbest e p hb
      rw [List.map_cons] at hnodup
      obtain ⟨hhd, htl⟩ := List.nodup_cons.mp hnodup
      rw [List.foldl_cons] at hb ⊢
      rcases dropStep_shape cfg side imb qtyF now mid bb ba st hd with
        ⟨hw, h2⟩ | ⟨hw, h2⟩ | ⟨hw, ev, h2, _⟩
      · refine ih _ htl ?_ ?_ e p hb
        · intro k i hm
          rw [hw]
          exact hlk k i (List.mem_cons_of_mem hd hm)
        · intro e' p' hb'
          obtain ⟨hs, hnm⟩ := hbest e' p' (h2 ▸ hb')
          rw [hw]
          exact ⟨hs, fun hmem => hnm (List.mem_cons_of_mem hd.1 hmem)⟩
      · refine ih _ htl ?_ ?_ e p hb
        · intro k i hm
          have hkne : k ≠ hd.1 := by
            intro hcontra
            exact hhd (hcontra ▸ List.mem_map_of_mem Prod.fst hm)
          rw [hw, lookupWall_popWall_ne st.walls hd.1 k hkne]
          exact hlk k i (List.mem_cons_of_mem hd hm)
        · intro e' p' hb'
          obtain ⟨hs, hnm⟩ := hbest e' p' (h2 ▸ hb')
          have hpne : p' ≠ hd.1 := fun hcontra =>
            hnm (hcontra ▸ List.mem_cons_self hd.1 (tl.map Prod.fst))
          rw [hw, lookupWall_popWall_ne st.walls hd.1 p' hpne]
          exact ⟨hs, fun hmem => hnm (List.mem_cons_of_mem hd.1 hmem)⟩
      · refine ih _ htl ?_ ?_ e p hb
        · intro k i hm
          rw [hw]
          exact hlk k i (List.mem_cons_of_mem hd hm)
        · intro e' p' hb'
          rw [h2] at hb'
          simp only [Option.some.injEq, Prod.mk.injEq] at hb'
          rw [hw, ← hb'.2]
          constructor
          · rw [hlk hd.1 hd.2 (List.mem_cons_self hd tl)]
            rfl
          · exact hhd


/-! ## C3: cooldown-suppressed winner -/

/-- C3 (amended): when a tracked wall survives every filter and wins the
per-side tie-break but the direction-level or global cooldown is still
active, no event is emitted and the winning wall REMAINS in the tracked-wall
set — `_check_drops` pops the winner only on an actual emission. -/
theorem C3_cooldown_suppressed_winner_kept :
    ∀ (cfg : DetectorCfg) (d : DetectorState) (side : Side) (imb : ℚ)
      (qtyF : Side → ℚ → ℚ) (now mid bb ba : ℚ) (ev : SignalEvent) (p : ℚ),
      ((d.walls side).map Prod.fst).Nodup →
      (dropLoop cfg d side imb qtyF now mid bb ba).best = some (ev, p) →
      (now - d.lastSignalTs (if side = .bid then .short else .long) <
          cfg.signalCooldownSec ∨
        now - d.lastGlobalSignalTs < cfg.globalCooldownSec) →
      (checkDrops cfg d side imb qtyF now mid bb ba).1 = none ∧
      (lookupWall ((checkDrops cfg d side imb qtyF now mid bb ba).2.walls side)
        p).isSome := by
  intro cfg d side imb qtyF now mid bb ba ev p hnodup hbest hcool
  have hb' := hbest
  rw [dropLoop] at hbest
  have hmem := dropFold_best_mem cfg side imb qtyF now mid bb ba (d.walls side)
    { walls := d.walls side, levelTs := d.lastLevelSignalTs, best := none }
    hnodup
    (fun k i hm => lookupWall_of_mem_nodup (d.walls side) k i hnodup hm)
    (fun e p h => by cases h)
    ev p hbest
  rw [← dropLoop] at hmem
  constructor
  · simp only [checkDrops]
    split
    · rfl
    · rcases hcool with h1 | h2
      · rw [if_pos h1]
      · by_cases h1 : now - d.lastSignalTs
            (if side = Side.bid then Direction.short else Direction.long) <
            cfg.signalCooldownSec
        · rw [if_pos h1]
        · rw [if_neg h1, if_pos h2]
  · simp only [checkDrops]
    split
    · next heq =>
        rw [hb'] at heq
        cases heq
    · next b bp heq =>
        rcases hcool with h1 | h2
        · rw [if_pos h1]
          show (lookupWall
            (((d.setWalls side (dropLoop cfg d side imb qtyF now mid bb ba).walls).setLevelTs
              (dropLoop cfg d side imb qtyF now mid bb ba).levelTs).walls side) p).isSome
          rw [walls_setLevelTs, walls_setWalls_self]
          exact hmem
        · by_cases h1 : now - d.lastSignalTs
              (if side = Side.bid then Direction.short else Direction.long) <
              cfg.signalCooldownSec
          · rw [if_pos h1]
            show (lookupWall
              (((d.setWalls side (dropLoop cfg d side imb qtyF now mid bb ba).walls).setLevelTs
                (dropLoop cfg d side imb qtyF now mid bb ba).levelTs).walls side) p).isSome
            rw [walls_setLevelTs, walls_setWalls_self]
            exact hmem
          · rw [if_neg h1, if_pos h2]
            show (lookupWall
              (((d.setWalls side (dropLoop cfg d side imb qtyF now mid bb ba).walls).setLevelTs
                (dropLoop cfg d side imb qtyF now mid bb ba).levelTs).walls side) p).isSome
            rw [walls_setLevelTs, walls_setWalls_self]
            exact hmem

/-- C3 counterexample to the claim as stated: the tracked ask wall at 101
passes every filter and wins the tie-break (it is emitted when the cooldown
is zero), yet with the direction cooldown still active `process` emits
nothing AND the wall is still present in the tracked-wall set afterwards —
the claim's "that wall is nevertheless removed" is false on the code. -/
theorem C3_counterexample :
    (processDetector cooldownCfg cooldownWalls demoBook demoQty 10).1 = [] ∧
    (lookupWall
      (processDetector cooldownCfg cooldownWalls demoBook demoQty 10).2.2.2.2.wallsAsk
      101).isSome = true ∧
    (processDetector demoCfg cooldownWalls demoBook demoQty 10).1 = [ev95] := by
  refine ⟨?_, ?_, ?_⟩ <;>
    norm_num +decide [processDetector, trackNewWalls, dropLoop, dropStep,
      buildCandidate, promoteBest, mkDropEvent, checkDrops, calcImbalance,
      calcSpreadBps, calcMid, medianQ, sortBy, insertSorted, classify, calcTouchBps,
      allowLevelSignal, lookupTs, setTs, bucketKey, round8, roundHalfEven, pyInt,
      isBetterEvent, lookupWall, popWall, cooldownCfg, demoCfg, cooldownWalls,
      demoWalls, demoBook, demoQty, ev95, min_def, max_def, abs_eq_max_neg,
      DetectorState.walls,
      DetectorState.setWalls, DetectorState.setLevelTs, DetectorState.setGlobalTs,
      DetectorState.lastSignalTs, DetectorState.setLastSignalTs]

theorem C3_witness :
    ((cooldownWalls.walls .ask).map Prod.fst).Nodup ∧
    (dropLoop cooldownCfg cooldownWalls .ask (3/10) demoQty 10 (201/2) 100 101).best =
      some (ev95, 101) ∧
    (10 - cooldownWalls.lastSignalTs
        (if Side.ask = Side.bid then Direction.short else Direction.long) <
      cooldownCfg.signalCooldownSec ∨
      10 - cooldownWalls.lastGlobalSignalTs < cooldownCfg.globalCooldownSec) ∧
    (checkDrops cooldownCfg cooldownWalls .ask (3/10) demoQty 10 (201/2) 100 101).1 =
      none ∧
    (lookupWall
      ((checkDrops cooldownCfg cooldownWalls .ask (3/10) demoQty 10 (201/2)
        100 101).2.walls .ask) 101).isSome := by
  have hn : ((cooldownWalls.walls .ask).map Prod.fst).Nodup := by
    norm_num [cooldownWalls, demoWalls, DetectorState.walls]
  have hbL : (dropLoop cooldownCfg cooldownWalls .ask (3/10) demoQty 10 (201/2)
      100 101).best = some (ev95, 101) := by
    norm_num +decide [dropLoop, dropStep, buildCandidate, promoteBest, mkDropEvent,
      classify, calcTouchBps, allowLevelSignal, lookupTs, setTs, bucketKey, round8,
      roundHalfEven, pyInt, isBetterEvent, cooldownCfg, demoCfg, cooldownWalls,
      demoWalls, demoQty, ev95, min_def, max_def, abs_eq_max_neg,
      DetectorState.walls]
  have hc : (10 - cooldownWalls.lastSignalTs
        (if Side.ask = Side.bid then Direction.short else Direction.long) <
      cooldownCfg.signalCooldownSec ∨
      10 - cooldownWalls.lastGlobalSignalTs < cooldownCfg.globalCooldownSec) :=
    Or.inl (by
      norm_num +decide [cooldownWalls, demoWalls, cooldownCfg, demoCfg,
        DetectorState.lastSignalTs])
  have h := C3_cooldown_suppressed_winner_kept cooldownCfg cooldownWalls .ask (3/10)
    demoQty 10 (201/2) 100 101 ev95 101 hn hbL hc
  exact ⟨hn, hbL, hc, h.1, h.2⟩

/-! ## C9: composite score of emitted events -/

theorem mem_matchOption (o : Option SignalEvent) (ev : SignalEvent)
    (h : ev ∈ (match o with | some e => [e] | none => ([] : List SignalEvent))) :
    o = some ev := by
  cases o with
  | none => cases h
  | some e =>
      rw [List.mem_singleton.mp h]

theorem checkDrops_best_of_some (cfg : DetectorCfg) (d : DetectorState) (side : Side)
    (imb : ℚ) (qtyF : Side → ℚ → ℚ) (now mid bb ba : ℚ) (ev : SignalEvent)
    (h : (checkDrops cfg d side imb qtyF now mid bb ba).1 = some ev) :
    ∃ p, (dropLoop cfg d side imb qtyF now mid bb ba).best = some (ev, p) := by
  simp only [checkDrops] at h
  split at h
  · cases h
  · next b bp heq =>
      by_cases h1 : now - d.lastSignalTs
          (if side = Side.bid then Direction.short else Direction.long) <
          cfg.signalCooldownSec
      · rw [if_pos h1] at h
        cases h
      · rw [if_neg h1] at h
        by_cases h2 : now - d.lastGlobalSignalTs < cfg.globalCooldownSec
        · rw [if_pos h2] at h
          cases h
        · rw [if_neg h2] at h
          simp only [Option.some.injEq] at h
          exact ⟨bp, h ▸ heq⟩

theorem scoreEq_of_loop_best (cfg : DetectorCfg) (d : DetectorState) (side : Side)
    (imb : ℚ) (qtyF : Side → ℚ → ℚ) (now mid bb ba : ℚ) (ev : SignalEvent) (p : ℚ)
    (h : (dropLoop cfg d side imb qtyF now mid bb ba).best = some (ev, p)) :
    emittedScoreEq ev := by
  rw [dropLoop] at h
  exact dropFold_best_score cfg side imb qtyF now mid bb ba (d.walls side)
    { walls := d.walls side, levelTs := d.lastLevelSignalTs, best := none }
    (fun e p h => by cases h) ev p h

/-- C9 (amended): every event `process` emits carries
`score = int(min(100, 10 + min(40, |imbalance|*200) + min(40, drop*40) +
max(0, 20 - touch_bps*10)))` over its own recorded fields — the Python `int`
truncation of the capped sum, with no lower clamp (the sum is ≥ 10 whenever
the configured thresholds are nonnegative, so the clamp at 0 never binds
there, but the stored score is the truncated integer, not the exact value). -/
theorem C9_composite_score_truncated :
    ∀ (cfg : DetectorCfg) (d : DetectorState) (st : OrderBookState)
      (qtyF : Side → ℚ → ℚ) (now : ℚ) (ev : SignalEvent),
      ev ∈ (processDetector cfg d st qtyF now).1 →
      ev.score = pyInt (min 100 (10 + min 40 (|ev.imbalance| * 200) +
        min 40 (ev.dropPct * 40) + max 0 (20 - ev.touchBps * 10))) := by
  intro cfg d st qtyF now ev hmem
  simp only [processDetector] at hmem
  rcases List.mem_append.mp hmem with h | h
  · obtain ⟨p, hb⟩ := checkDrops_best_of_some _ _ _ _ _ _ _ _ _ _
      (mem_matchOption _ ev h)
    exact scoreEq_of_loop_best _ _ _ _ _ _ _ _ _ ev p hb
  · obtain ⟨p, hb⟩ := checkDrops_best_of_some _ _ _ _ _ _ _ _ _ _
      (mem_matchOption _ ev h)
    exact scoreEq_of_loop_best _ _ _ _ _ _ _ _ _ ev p hb

/-- C9 counterexample to the claim as stated: the emitted event has
`imbalance = 0.3`, `drop = 0.63`, `touch_bps = 0`, so the spec's clamp
formula gives `95.2`, while the stored score is the truncated `95`. -/
theorem C9_counterexample :
    (processDetector demoCfg demoWalls demoBook demoQty 10).1 = [ev95] ∧
    (ev95.score : ℚ) ≠ claimedScore ev95 := by
  constructor
  · norm_num +decide [processDetector, trackNewWalls, dropLoop, dropStep,
      buildCandidate, promoteBest, mkDropEvent, checkDrops, calcImbalance,
      calcSpreadBps, calcMid, medianQ, sortBy, insertSorted, classify, calcTouchBps,
      allowLevelSignal, lookupTs, setTs, bucketKey, round8, roundHalfEven, pyInt,
      isBetterEvent, lookupWall, popWall, demoCfg, demoWalls, demoBook, demoQty,
      ev95, min_def, max_def, abs_eq_max_neg, DetectorState.walls,
      DetectorState.setWalls, DetectorState.setLevelTs, DetectorState.setGlobalTs,
      DetectorState.lastSignalTs, DetectorState.setLastSignalTs]
  · norm_num [claimedScore, ev95, min_def, max_def, abs_eq_max_neg]

theorem C9_witness :
    ev95 ∈ (processDetector demoCfg demoWalls demoBook demoQty 10).1 ∧
    ev95.score = pyInt (min 100 (10 + min 40 (|ev95.imbalance| * 200) +
      min 40 (ev95.dropPct * 40) + max 0 (20 - ev95.touchBps * 10))) := by
  have hm : ev95 ∈ (processDetector demoCfg demoWalls demoBook demoQty 10).1 := by
    have h : (processDetector demoCfg demoWalls demoBook demoQty 10).1 = [ev95] := by
      norm_num +decide [processDetector, trackNewWalls, dropLoop, dropStep,
        buildCandidate, promoteBest, mkDropEvent, checkDrops, calcImbalance,
        calcSpreadBps, calcMid, medianQ, sortBy, insertSorted, classify, calcTouchBps,
        allowLevelSignal, lookupTs, setTs, bucketKey, round8, roundHalfEven, pyInt,
        isBetterEvent, lookupWall, popWall, demoCfg, demoWalls, demoBook, demoQty,
        ev95, min_def, max_def, abs_eq_max_neg, DetectorState.walls,
        DetectorState.setWalls, DetectorState.setLevelTs, DetectorState.setGlobalTs,
        DetectorState.lastSignalTs, DetectorState.setLastSignalTs]
    rw [h]
    exact List.mem_singleton.mpr rfl
  exact ⟨hm, C9_composite_score_truncated demoCfg demoWalls demoBook demoQty 10 ev95 hm⟩

/-! ## C4: bounded scorer outputs -/

theorem le_clampR (x lo hi : ℝ) : lo ≤ clampR x lo hi := le_max_left lo _

theorem clampR_le (x lo hi : ℝ) (h : lo ≤ hi) : clampR x lo hi ≤ hi :=
  max_le h (min_le_left hi x)

theorem abs_clampR (x m : ℝ) (h : 0 ≤ m) : |clampR x (-m) m| ≤ m :=
  abs_le.mpr ⟨le_clampR x (-m) m, clampR_le x (-m) m (by linarith)⟩

theorem ScorerInv.mkScorer (pressureRangesBps pressureWeights : List ℝ)
    (baseScale shockHalfLifeSec maxShock shockDistanceBpsCap shockMinAgeSec
      shockAgeFullSec minDepthSum : ℝ) (baseCenterMode : CenterMode)
    (baseRefWeight : ℝ) (shockDistanceMode : CenterMode)
    (shockFullRemove shockMajorDrop shockDrop : ℝ) :
    ScorerInv (WallBot.mkScorer pressureRangesBps pressureWeights baseScale
      shockHalfLifeSec maxShock shockDistanceBpsCap shockMinAgeSec shockAgeFullSec
      minDepthSum baseCenterMode baseRefWeight shockDistanceMode shockFullRemove
      shockMajorDrop shockDrop) := by
  refine ⟨?_, ?_, ?_⟩
  · show |(0 : ℝ)| ≤ max 1 maxShock
    rw [abs_zero]
    exact le_trans zero_le_one (le_max_left 1 maxShock)
  · exact le_max_left 1 maxShock
  · show (0 : ℝ) < max 0.1 shockHalfLifeSec
    exact lt_of_lt_of_le (by norm_num) (le_max_left 0.1 shockHalfLifeSec)

theorem abs_mul_exp_le (v M a : ℝ) (h1 : |v| ≤ M) (ha : a ≤ 0) :
    |v * Real.exp a| ≤ M := by
  rw [abs_mul, abs_of_pos (Real.exp_pos a)]
  calc |v| * Real.exp a ≤ |v| * 1 :=
        mul_le_mul_of_nonneg_left (Real.exp_le_one_iff.mpr ha) (abs_nonneg v)
    _ = |v| := mul_one |v|
    _ ≤ M := h1

theorem decay_arg_nonpos (dt l hl : ℝ) (hdt : 0 ≤ dt) (hl0 : 0 ≤ l) (hhl : 0 < hl) :
    -dt * l / hl ≤ 0 := by
  apply div_nonpos_iff.mpr
  refine Or.inr ⟨?_, le_of_lt hhl⟩
  nlinarith

theorem ScorerInv.decayShock (s : ScorerState) (ts : ℝ) (h : ScorerInv s) :
    ScorerInv (WallBot.decayShock s ts) := by
  obtain ⟨h1, h2, h3⟩ := h
  simp only [WallBot.decayShock]
  split
  · exact ⟨h1, h2, h3⟩
  · rename_i x last
    split
    · exact ⟨abs_mul_exp_le s.shockValue s.maxShock _ h1
        (decay_arg_nonpos (max 0 (ts - x)) (Real.log 2) s.shockHalfLifeSec
          (le_max_left 0 (ts - x)) (Real.log_nonneg one_le_two) h3), h2, h3⟩
    · exact ⟨h1, h2, h3⟩

theorem ScorerInv.setReference (s : ScorerState) (price ts : ℝ) (roundId : String)
    (h : ScorerInv s) : ScorerInv (WallBot.setReference s price ts roundId) := by
  obtain ⟨h1, h2, h3⟩ := h
  refine ⟨?_, h2, h3⟩
  show |(0 : ℝ)| ≤ s.maxShock
  rw [abs_zero]
  linarith

theorem ScorerInv.onWallEventCore (s : ScorerState) (ev : RSignalEvent)
    (h : ScorerInv s) : ScorerInv (WallBot.onWallEventCore s ev) := by
  obtain ⟨h1, h2, h3⟩ := h
  simp only [WallBot.onWallEventCore]
  split
  · exact ⟨h1, h2, h3⟩
  · split
    · exact ⟨h1, h2, h3⟩
    · split
      · exact ⟨h1, h2, h3⟩
      · exact ⟨abs_clampR _ s.maxShock (by linarith), h2, h3⟩

theorem ScorerInv.runScorerOp (s : ScorerState) (op : ScorerOp) (h : ScorerInv s) :
    ScorerInv (WallBot.runScorerOp s op) := by
  cases op with
  | setRef price ts roundId => exact ScorerInv.setReference s price ts roundId h
  | bookUpdate ob ts => exact ScorerInv.decayShock s ts h
  | wallEvent ev ts =>
      exact ScorerInv.onWallEventCore (WallBot.decayShock s ts) ev
        (ScorerInv.decayShock s ts h)

theorem ScorerInv.runScorerOps (s : ScorerState) (ops : List ScorerOp)
    (h : ScorerInv s) : ScorerInv (WallBot.runScorerOps s ops) := by
  induction ops generalizing s with
  | nil => exact h
  | cons op rest ih => exact ih (WallBot.runScorerOp s op) (h.runScorerOp s op)

theorem calcBaseRaw_bounds (s : ScorerState) (ob : RBook) :
    -1 ≤ calcBaseRaw s ob ∧ calcBaseRaw s ob ≤ 1 := by
  rw [calcBaseRaw]
  split
  · norm_num
  · exact ⟨le_clampR _ _ _, clampR_le _ _ _ (by norm_num)⟩

/-- C4: from any freshly constructed scorer, every sequence of
`set_reference` / `on_orderbook_update` / `on_wall_event` calls keeps the
shock value inside `[-max_shock, max_shock]` (with the constructor-sanitized
`max_shock ≥ 1`), and every `ScoreSnapshot` any `on_orderbook_update` returns
has `base_raw ∈ [-1, 1]`, `p_up ∈ [0, 100]` and `p_down = 100 - p_up`. -/
theorem C4_bounded_outputs :
    (∀ (pressureRangesBps pressureWeights : List ℝ)
      (baseScale shockHalfLifeSec maxShock shockDistanceBpsCap shockMinAgeSec
        shockAgeFullSec minDepthSum : ℝ) (baseCenterMode : CenterMode)
      (baseRefWeight : ℝ) (shockDistanceMode : CenterMode)
      (shockFullRemove shockMajorDrop shockDrop : ℝ) (ops : List ScorerOp),
      ScorerInv (runScorerOps (mkScorer pressureRangesBps pressureWeights baseScale
        shockHalfLifeSec maxShock shockDistanceBpsCap shockMinAgeSec
        shockAgeFullSec minDepthSum baseCenterMode baseRefWeight shockDistanceMode
        shockFullRemove shockMajorDrop shockDrop) ops)) ∧
    (∀ (s : ScorerState) (ob : RBook) (ts : ℝ),
      -1 ≤ (onOrderbookUpdate s ob ts).2.baseRaw ∧
      (onOrderbookUpdate s ob ts).2.baseRaw ≤ 1 ∧
      0 ≤ (onOrderbookUpdate s ob ts).2.pUp ∧
      (onOrderbookUpdate s ob ts).2.pUp ≤ 100 ∧
      (onOrderbookUpdate s ob ts).2.pDown = 100 - (onOrderbookUpdate s ob ts).2.pUp) := by
  constructor
  · intro p1 p2 p3 p4 p5 p6 p7 p8 p9 p10 p11 p12 p13 p14 p15 ops
    exact (ScorerInv.mkScorer p1 p2 p3 p4 p5 p6 p7 p8 p9 p10 p11 p12 p13 p14
      p15).runScorerOps _ ops
  · intro s ob ts
    obtain ⟨hb1, hb2⟩ := calcBaseRaw_bounds (decayShock s ts) ob
    exact ⟨hb1, hb2, le_clampR _ _ _, clampR_le _ _ _ (by norm_num), rfl⟩

/-! ## C8: shock decay -/

theorem testScorerRef_eq : testScorerRef = testScorerLit := by
  rw [testScorerRef, testScorer, setReference, mkScorer, testScorerLit]
  simp only [ScorerState.mk.injEq, clampR]
  norm_num

theorem calcBaseRaw_testBook (s : ScorerState) (h1 : s.refPrice = 100)
    (h2 : s.baseCenterMode = .ref) (h3 : s.pressureRangesBps = [5, 10, 20])
    (h4 : s.pressureWeights = [1, 0.6, 0.3]) (h5 : s.minDepthSum = 1) :
    calcBaseRaw s testBook = 0 := by
  rw [calcBaseRaw]
  norm_num [h1, h2, h3, h4, h5, calcPressureForCenter, sumLevelsIn, rMid, testBook,
    clampR]

theorem decayShock_noop (s : ScorerState) (ts last : ℝ) (h : s.lastTs = some last)
    (hle : ts ≤ last) : decayShock s ts = s := by
  simp only [decayShock, h]
  rw [if_neg]
  rw [not_lt, max_le_iff]
  exact ⟨le_refl 0, by linarith⟩

theorem base_state_eq : (onOrderbookUpdate testScorerRef testBook 0).1 =
    testScorerLit := by
  show decayShock testScorerRef 0 = testScorerLit
  rw [testScorerRef_eq]
  exact decayShock_noop testScorerLit 0 0 rfl le_rfl

theorem base_pUp : (onOrderbookUpdate testScorerRef testBook 0).2.pUp = 50 := by
  show clampR (clampR (50 + calcBaseRaw (decayShock testScorerRef 0) testBook *
    (decayShock testScorerRef 0).baseScale) 0 100 +
    (decayShock testScorerRef 0).shockValue) 0 100 = 50
  have hd : decayShock testScorerRef 0 = testScorerLit := by
    rw [testScorerRef_eq]
    exact decayShock_noop testScorerLit 0 0 rfl le_rfl
  rw [hd, calcBaseRaw_testBook testScorerLit rfl rfl rfl rfl rfl]
  norm_num [clampR, testScorerLit]

theorem shocked_state_eq : onWallEvent testScorerRef testEvent 0 =
    { testScorerLit with shockValue := 6 } := by
  rw [onWallEvent, testScorerRef_eq, decayShock_noop testScorerLit 0 0 rfl le_rfl]
  rw [onWallEventCore]
  norm_num [testScorerLit, testEvent, eventShock, eventDistanceCenter, clampR,
    ScorerState.mk.injEq, abs_eq_max_neg]

theorem shocked_pUp :
    (onOrderbookUpdate (onWallEvent testScorerRef testEvent 0) testBook 0).2.pUp =
      56 := by
  show clampR (clampR (50 +
    calcBaseRaw (decayShock (onWallEvent testScorerRef testEvent 0) 0) testBook *
    (decayShock (onWallEvent testScorerRef testEvent 0) 0).baseScale) 0 100 +
    (decayShock (onWallEvent testScorerRef testEvent 0) 0).shockValue) 0 100 = 56
  have hd : decayShock (onWallEvent testScorerRef testEvent 0) 0 =
      { testScorerLit with shockValue := 6 } := by
    rw [shocked_state_eq]
    exact decayShock_noop _ 0 0 rfl le_rfl
  rw [hd, calcBaseRaw_testBook _ rfl rfl rfl rfl rfl]
  norm_num [clampR, testScorerLit]

theorem decayed_state_eq :
    decayShock (onWallEvent testScorerRef testEvent 0) 80 =
      { testScorerLit with
        shockValue := 6 * Real.exp (-(80 : ℝ) * Real.log 2 / 15)
        lastTs := some 80 } := by
  rw [shocked_state_eq]
  simp only [decayShock]
  norm_num [testScorerLit, ScorerState.mk.injEq]

theorem exp_decay_bound :
    Real.exp (-(80 : ℝ) * Real.log 2 / 15) ≤ 1 / 32 := by
  have hl : (0 : ℝ) ≤ Real.log 2 := Real.log_nonneg one_le_two
  have h1 : (-(80 : ℝ) * Real.log 2 / 15) ≤ -(((5 : ℕ) : ℝ) * Real.log 2) := by
    rw [div_le_iff₀ (by norm_num : (0 : ℝ) < 15)]
    push_cast
    nlinarith
  calc Real.exp (-(80 : ℝ) * Real.log 2 / 15) ≤
      Real.exp (-(((5 : ℕ) : ℝ) * Real.log 2)) := Real.exp_le_exp.mpr h1
    _ = (Real.exp (((5 : ℕ) : ℝ) * Real.log 2))⁻¹ := Real.exp_neg _
    _ = ((2 : ℝ) ^ (5 : ℕ))⁻¹ := by rw [Real.exp_nat_mul, Real.exp_log two_pos]
    _ = 1 / 32 := by norm_num

theorem decayed_pUp :
    (onOrderbookUpdate (onWallEvent testScorerRef testEvent 0) testBook 80).2.pUp =
      50 + 6 * Real.exp (-(80 : ℝ) * Real.log 2 / 15) := by
  show clampR (clampR (50 +
    calcBaseRaw (decayShock (onWallEvent testScorerRef testEvent 0) 80) testBook *
    (decayShock (onWallEvent testScorerRef testEvent 0) 80).baseScale) 0 100 +
    (decayShock (onWallEvent testScorerRef testEvent 0) 80).shockValue) 0 100 =
    50 + 6 * Real.exp (-(80 : ℝ) * Real.log 2 / 15)
  rw [decayed_state_eq, calcBaseRaw_testBook _ rfl rfl rfl rfl rfl]
  have hpos : 0 < Real.exp (-(80 : ℝ) * Real.log 2 / 15) := Real.exp_pos _
  have hbnd := exp_decay_bound
  show clampR (clampR (50 + 0 * (30 : ℝ)) 0 100 +
    6 * Real.exp (-(80 : ℝ) * Real.log 2 / 15)) 0 100 = _
  rw [zero_mul, add_zero, clampR, clampR]
  rw [min_eq_right (by norm_num : (50 : ℝ) ≤ 100),
    max_eq_right (by norm_num : (0 : ℝ) ≤ 50)]
  rw [min_eq_right (by nlinarith), max_eq_right (by nlinarith)]

/-- C8: `_decay_shock` multiplies the stored shock by
`exp(-(ts - last) * ln 2 / half_life)` exactly when `ts - last > 0` and leaves
it alone otherwise; both `on_orderbook_update` and `on_wall_event` decay
first; and in the concrete balanced-profile scenario (reference 100, half-life
15 s) an ask-side full removal lifts `p_up` from the undisturbed 50 to 56, and
80 s later `p_up` is back within 0.3 of 50 (the residual is
`6·exp(-80·ln2/15) ≤ 6/32`). -/
theorem C8_shock_decay :
    (∀ (s : ScorerState) (ts last : ℝ), s.lastTs = some last →
      (decayShock s ts).shockValue =
        (if 0 < ts - last then
          s.shockValue * Real.exp (-(ts - last) * Real.log 2 / s.shockHalfLifeSec)
        else s.shockValue)) ∧
    (∀ (s : ScorerState) (ob : RBook) (ts : ℝ),
      (onOrderbookUpdate s ob ts).1 = decayShock s ts) ∧
    (∀ (s : ScorerState) (ev : RSignalEvent) (ts : ℝ),
      onWallEvent s ev ts = onWallEventCore (decayShock s ts) ev) ∧
    ((onOrderbookUpdate testScorerRef testBook 0).2.pUp <
      (onOrderbookUpdate (onWallEvent testScorerRef testEvent 0) testBook 0).2.pUp ∧
    |(onOrderbookUpdate (onWallEvent testScorerRef testEvent 0) testBook 80).2.pUp -
      (onOrderbookUpdate testScorerRef testBook 0).2.pUp| < 0.3) := by
  refine ⟨?_, fun s ob ts => rfl, fun s ev ts => rfl, ?_, ?_⟩
  · intro s ts last h
    simp only [decayShock, h]
    by_cases hd : 0 < ts - last
    · have hmax : max 0 (ts - last) = ts - last := max_eq_right (le_of_lt hd)
      rw [hmax, if_pos hd, if_pos hd]
    · have hmax : max 0 (ts - last) = 0 := max_eq_left (by linarith)
      rw [hmax, if_neg (lt_irrefl 0), if_neg hd]
  · rw [base_pUp, shocked_pUp]
    norm_num
  · rw [base_pUp, decayed_pUp]
    have hpos : 0 < Real.exp (-(80 : ℝ) * Real.log 2 / 15) := Real.exp_pos _
    have hbnd := exp_decay_bound
    rw [abs_of_pos (by nlinarith)]
    nlinarith

theorem C8_witness :
    testScorerRef.lastTs = some 0 ∧
    (decayShock testScorerRef 80).shockValue =
      (if 0 < (80 : ℝ) - 0 then
        testScorerRef.shockValue *
          Real.exp (-((80 : ℝ) - 0) * Real.log 2 / testScorerRef.shockHalfLifeSec)
      else testScorerRef.shockValue) := by
  have h : testScorerRef.lastTs = some 0 := by
    rw [testScorerRef_eq]
    rfl
  exact ⟨h, C8_shock_decay.1 testScorerRef 80 0 h⟩

end WallBot
